import Mathlib

/-!
# Verification of the inventory reconciliation and checkout engine

Shallow embedding of the two core endpoints of the repository:

* `confirm_checkout` (src/inventory_confirm_checkout.py) — the checkout
  orchestrator driving the per-unit state machine and the quantity ledger;
* `add_inventory` (src/inventory_upload.py) — the upload diff engine.

Modelling conventions:

* Database tables (`Items`, `ItemsU`, `Room`, `ItemRoom`, `ItemProject`,
  `Project`, `User`, `UserProject`) are lists of records; the Django query
  primitives `filter`, `get`, `first`, `get_or_create` become list
  `filter` / `find?`; `get` misses (Django `DoesNotExist` exceptions)
  surface as an explicit `exn` outcome.  Natural keys (`item_u_id`,
  `room_id`, `(item_id, room_id)`, `(item_id, project_id)`) are assumed
  unique where the source assumes them unique; a `save()` on a row fetched
  by key is modelled as a `map` replacing the rows matching that key.
* Unit stages keep the source's string tags "a" / "r" / "m" / "c".
* Nullable integer columns that the source normalizes at function entry are
  modelled as plain integers; monetary fields are modelled as integers (the
  source's round-to-2-decimals comparison becomes plain equality).
* External side effects (audit log, QR label generation, file persistence,
  e-mail dispatch) are out of the data contract; e-mails are materialized as
  a result list so the notification claims can be stated, the others are
  dropped.  Python's `set(...).union(set(...))` for recipients is modelled
  as an order-preserving deduplicated concatenation.
-/

/-- A SKU-level catalog row (`Items` table). -/
structure Item where
  item_id : Nat
  sku_num : String
  studio_id : String
  description : String
  sale_price : Int
  unit_cost : Int
  vendor : String
  dimensions : String
  sales_code : String
  loc : String
  item_code_1 : String
  item_code_2 : String
  category : String
  available_quantity : Int
  reserved_quantity : Int
  total_quantity : Int
  previous_total_quantity : Int
deriving Repr, DecidableEq

/-- One physical countable unit of an item (`ItemsU` table). -/
structure ItemsU where
  item_u_id : Nat
  item_id : Nat
  stage : String
  project_id : Option Nat
deriving Repr, DecidableEq

/-- A named location bucket scoped to a project (`Room` table). -/
structure Room where
  room_id : Nat
  project_id : Nat
  room_name : String
deriving Repr, DecidableEq

/-- Join of (item, room) with the three quantity counters (`ItemRoom` table). -/
structure ItemRoom where
  item_id : Nat
  room_id : Nat
  item_quantity : Int
  item_quantity_holder : Int
  all_reserved : Int
deriving Repr, DecidableEq

/-- Cached per-project aggregate for one item (`ItemProject` table). -/
structure ItemProject where
  item_id : Nat
  project_id : Nat
  reserved_quantity : Int
  checked_out_quantity : Int
  checked_out_quantity_holder : Int
deriving Repr, DecidableEq

/-- A project (`Project` table). -/
structure Project where
  project_id : Nat
  project_name : String
  completed_date : Option Nat
deriving Repr, DecidableEq

/-- An account (`User` table); only the fields the notification code reads. -/
structure User where
  user_id : Nat
  email : String
  is_superuser : Bool
deriving Repr, DecidableEq

/-- Association of users to projects (`UserProject` table). -/
structure UserProject where
  user_id : Nat
  project_id : Nat
deriving Repr, DecidableEq

/-- The persistent store, as one record of tables.  `nextRoomId` supplies the
primary key for rooms auto-created by `get_or_create`. -/
structure DB where
  items : List Item
  itemsU : List ItemsU
  rooms : List Room
  itemRooms : List ItemRoom
  itemProjects : List ItemProject
  projects : List Project
  users : List User
  userProjects : List UserProject
  nextRoomId : Nat
deriving Repr, DecidableEq

/-- One per-sku entry of a stolen-reservation event
(`{"sku_num": ..., "quantity": ...}` in the source). -/
structure StolenItem where
  sku_num : String
  quantity : Nat
deriving Repr, DecidableEq

/-- One per-project stolen-reservation event
(`{"project_id": ..., "items": [...]}` in the source). -/
structure StolenProject where
  project_id : Nat
  items : List StolenItem
deriving Repr, DecidableEq

/-- Walk the per-sku entries; bump the first entry for `sku` by one
(the inner `for item_dict in project_info["items"]` loop); `none` when no
entry carries `sku`. -/
def bumpStolenItem : List StolenItem → String → Option (List StolenItem)
  | [], _ => none
  | d :: rest, sku =>
    if d.sku_num == sku then some ({ d with quantity := d.quantity + 1 } :: rest)
    else (bumpStolenItem rest sku).map (d :: ·)

/-- Accumulate one stolen unit of `sku` into a per-sku event list
(lines 106-117 of `confirm_checkout`). -/
def addStolenItem (l : List StolenItem) (sku : String) : List StolenItem :=
  match bumpStolenItem l sku with
  | some l2 => l2
  | none => l ++ [{ sku_num := sku, quantity := 1 }]

/-- Walk the per-project events; update the first entry for `pid`
(the outer `for project_info in stolen_projects` loop); `none` when no entry
carries `pid`. -/
def bumpStolenProject : List StolenProject → Nat → String → Option (List StolenProject)
  | [], _, _ => none
  | p :: rest, pid, sku =>
    if p.project_id == pid then some ({ p with items := addStolenItem p.items sku } :: rest)
    else (bumpStolenProject rest pid sku).map (p :: ·)

/-- Record one stolen unit of `sku` taken from project `pid`
(lines 101-125 of `confirm_checkout`). -/
def recordStolen (l : List StolenProject) (pid : Nat) (sku : String) :
    List StolenProject :=
  match bumpStolenProject l pid sku with
  | some l2 => l2
  | none => l ++ [{ project_id := pid, items := [{ sku_num := sku, quantity := 1 }] }]

/-- Does a room with primary key `rid` belonging to project `pid` exist?
(the `room__project_id` join condition of the Django filters). -/
def roomInProject (rooms : List Room) (rid pid : Nat) : Bool :=
  rooms.any (fun r => r.room_id == rid && r.project_id == pid)

/-- Sum of `item_quantity` over the rows of a list satisfying `p`. -/
def qtySum (l : List ItemRoom) (p : ItemRoom → Bool) : Int :=
  ((l.filter p).map ItemRoom.item_quantity).sum

/-- `sum(ir.item_quantity for ir in ItemRoom.objects.filter(item=item,
room__project=project))` (lines 59-62 / 90-96 of `confirm_checkout`). -/
def sumItemQty (db : DB) (iid pid : Nat) : Int :=
  qtySum db.itemRooms (fun ir => ir.item_id == iid && roomInProject db.rooms ir.room_id pid)

/-- `Room.objects.get_or_create(project_id=..., room_name="Unassigned")`
(lines 33-38 / 136-141); returns the updated store and the room's key. -/
def getOrCreateUnassigned (db : DB) (pid : Nat) : DB × Nat :=
  match db.rooms.find? (fun r => r.project_id == pid && r.room_name == "Unassigned") with
  | some r => (db, r.room_id)
  | none =>
    let rid := db.nextRoomId
    ({ db with
        rooms := db.rooms ++ [{ room_id := rid, project_id := pid, room_name := "Unassigned" }],
        nextRoomId := rid + 1 },
      rid)

/-- The `+1 / +1 / +1` update applied to an ItemRoom row that already exists
(lines 46-49 of `confirm_checkout`). -/
def bumpCounters (ir : ItemRoom) : ItemRoom :=
  { ir with
      item_quantity := ir.item_quantity + 1,
      item_quantity_holder := ir.item_quantity_holder + 1,
      all_reserved := ir.all_reserved + 1 }

/-- `ItemRoom.objects.get_or_create(item_id=..., room_id=...)` followed by the
increment-or-initialize-to-1 update and `save()` (lines 41-55 / 143-157). -/
def bumpItemRoom (db : DB) (iid rid : Nat) : DB :=
  if db.itemRooms.any (fun ir => ir.item_id == iid && ir.room_id == rid) then
    { db with
        itemRooms := db.itemRooms.map (fun ir =>
          if ir.item_id == iid && ir.room_id == rid then bumpCounters ir else ir) }
  else
    { db with
        itemRooms := db.itemRooms ++
          [{ item_id := iid, room_id := rid, item_quantity := 1,
             item_quantity_holder := 1, all_reserved := 1 }] }

/-- `ItemProject.objects.get_or_create(item=..., project=...)` followed by
`reserved_quantity = sum(...)` and `save()` (lines 57-63 / 86-97); newly
created aggregate rows start with zero checked-out counters. -/
def recomputeItemProject (db : DB) (iid pid : Nat) : DB :=
  let s := sumItemQty db iid pid
  if db.itemProjects.any (fun ip => ip.item_id == iid && ip.project_id == pid) then
    { db with
        itemProjects := db.itemProjects.map (fun ip =>
          if ip.item_id == iid && ip.project_id == pid then
            { ip with reserved_quantity := s }
          else ip) }
  else
    { db with
        itemProjects := db.itemProjects ++
          [{ item_id := iid, project_id := pid, reserved_quantity := s,
             checked_out_quantity := 0, checked_out_quantity_holder := 0 }] }

/-- `ItemRoom.objects.filter(item_quantity__lt=1).delete()` (line 66). -/
def purgeZeroQty (db : DB) : DB :=
  { db with itemRooms := db.itemRooms.filter (fun ir => decide (1 ≤ ir.item_quantity)) }

/-- The cross-project compensation block (lines 69-99 of `confirm_checkout`):
fetch the first ItemRoom row of the item inside the losing project `qpid`,
decrement its three counters, delete it when its quantity drops below 1, and
refresh the losing project's ItemProject aggregate.  When no such row exists
the whole block is skipped. -/
def stealCompensate (db : DB) (iid qpid : Nat) : DB :=
  match db.itemRooms.find? (fun ir => ir.item_id == iid && roomInProject db.rooms ir.room_id qpid) with
  | none => db
  | some prev =>
    let prev2 : ItemRoom :=
      { prev with
          item_quantity := prev.item_quantity - 1,
          item_quantity_holder := prev.item_quantity_holder - 1,
          all_reserved := prev.all_reserved - 1 }
    let db2 :=
      if prev2.item_quantity < 1 then
        { db with
            itemRooms := db.itemRooms.filter (fun ir =>
              !(ir.item_id == prev.item_id && ir.room_id == prev.room_id)) }
      else
        { db with
            itemRooms := db.itemRooms.map (fun ir =>
              if ir.item_id == prev.item_id && ir.room_id == prev.room_id then prev2 else ir) }
    match db.rooms.find? (fun r => r.room_id == prev.room_id) with
    | none => db2
    | some prevRoom => recomputeItemProject db2 iid prevRoom.project_id

/-- Loop state threaded through the per-unit pass of `confirm_checkout`:
the store plus the `item_id_list` and `stolen_projects` accumulators. -/
structure LoopState where
  db : DB
  item_id_list : List Nat
  stolen_projects : List StolenProject
deriving Repr, DecidableEq

/-- Outcome of processing one staged unit: normal continuation, the fatal
"unexpected stage" early return, or an unhandled exception (a Django
`DoesNotExist` / `TypeError` escaping the view). -/
inductive StepResult where
  | ok (st : LoopState)
  | fatal (st : LoopState)
  | exn
deriving Repr, DecidableEq

/-- The shared tail of every successful transition: `item_u.stage = "c";
item_u.project_id = project_id; item_u.save()` (lines 176-178).  The
best-effort audit log call (lines 168-173) has no data-model effect and is
dropped. -/
def commitUnit (pid : Nat) (st : LoopState) (uid : Nat) : LoopState :=
  { st with
      db := { st.db with
        itemsU := st.db.itemsU.map (fun u =>
          if u.item_u_id == uid then { u with stage := "c", project_id := some pid } else u) } }

/-- The shared body of the `available` and cross-project-`reserved` cases
(lines 32-125): place the unit into the target project's Unassigned room,
refresh the target's aggregate, purge zero-quantity rows, and — when the unit
was reserved by another project `q` — run the compensation block and record
the stolen-reservation event. -/
def branchAvailOrSteal (pid : Nat) (st : LoopState) (item : Item)
    (stealFrom : Option Nat) (ids : List Nat) : LoopState :=
  let p1 := getOrCreateUnassigned st.db pid
  let db2 := bumpItemRoom p1.1 item.item_id p1.2
  let db3 := recomputeItemProject db2 item.item_id pid
  let db4 := purgeZeroQty db3
  match stealFrom with
  | none => { db := db4, item_id_list := ids, stolen_projects := st.stolen_projects }
  | some q =>
    { db := stealCompensate db4 item.item_id q,
      item_id_list := ids,
      stolen_projects := recordStolen st.stolen_projects q item.sku_num }

/-- The `moving` case (lines 128-157): promote the first `available` unit of
the same item to `moving` with no project, then place the departing unit into
the target's Unassigned room.  No aggregate refresh and no zero-row purge
happen in this branch. -/
def branchMoving (pid : Nat) (st : LoopState) (item : Item) (ids : List Nat) : LoopState :=
  let db1 :=
    match st.db.itemsU.find? (fun u => u.item_id == item.item_id && u.stage == "a") with
    | none => st.db
    | some nu =>
      { st.db with
          itemsU := st.db.itemsU.map (fun u =>
            if u.item_u_id == nu.item_u_id then { u with stage := "m", project_id := none } else u) }
  let p2 := getOrCreateUnassigned db1 pid
  let db3 := bumpItemRoom p2.1 item.item_id p2.2
  { db := db3, item_id_list := ids, stolen_projects := st.stolen_projects }

/-- One iteration of the `for item_u_id in checkout_session_item_us` loop
(lines 22-178).  The stage dispatch mirrors the source's short-circuiting
condition `stage == "a" or (stage == "r" and int(project_id) != int(pid))`:
a reserved unit with a null `project_id` raises (`int(None)`), an unexpected
stage returns the fatal response, and every non-fatal path ends by marking
the unit checked out. -/
def processUnit (pid : Nat) (st : LoopState) (uid : Nat) : StepResult :=
  match st.db.itemsU.find? (fun u => u.item_u_id == uid) with
  | none => .exn
  | some item_u =>
    let ids := st.item_id_list ++ [item_u.item_id]
    match st.db.items.find? (fun it => it.item_id == item_u.item_id) with
    | none => .exn
    | some item =>
      if item_u.stage == "a" then
        .ok (commitUnit pid (branchAvailOrSteal pid st item none ids) uid)
      else if item_u.stage == "r" then
        match item_u.project_id with
        | none => .exn
        | some q =>
          if q != pid then
            .ok (commitUnit pid (branchAvailOrSteal pid st item (some q) ids) uid)
          else
            .ok (commitUnit pid { st with item_id_list := ids } uid)
      else if item_u.stage == "m" then
        .ok (commitUnit pid (branchMoving pid st item ids) uid)
      else
        .fatal { st with item_id_list := ids }

/-- The whole staged-unit loop; stops at the first fatal response or
exception. -/
def processUnits (pid : Nat) (st : LoopState) : List Nat → StepResult
  | [] => .ok st
  | uid :: rest =>
    match processUnit pid st uid with
    | .ok st2 => processUnits pid st2 rest
    | r => r

/-- One alert e-mail (lines 196-216); `adjusted_quantity` is the per-sku
stolen count carried by the event. -/
structure Email where
  recipients : List String
  new_project_name : String
  project_name : String
  sku : String
  adjusted_quantity : Nat
deriving Repr, DecidableEq

/-- Recipient list for one stolen-from project (lines 182-190): e-mails of
the users associated with the project, set-unioned with the e-mails of all
superusers.  The Python set union is modelled as deduplicated concatenation. -/
def recipientsFor (db : DB) (pid : Nat) : List String :=
  let userIds := (db.userProjects.filter (fun up => up.project_id == pid)).map UserProject.user_id
  let userEmails := (db.users.filter (fun u => userIds.contains u.user_id)).map User.email
  let superEmails := (db.users.filter User.is_superuser).map User.email
  (userEmails ++ superEmails).dedup

/-- Build the e-mail for one per-sku entry of one stolen-from project; the
`Items.objects.get(sku_num=...)` lookup (line 195) can raise, hence `Option`. -/
def emailFor (db : DB) (newProjectName projName : String) (recips : List String)
    (d : StolenItem) : Option Email :=
  (db.items.find? (fun it => it.sku_num == d.sku_num)).map (fun _ =>
    { recipients := recips, new_project_name := newProjectName, project_name := projName,
      sku := d.sku_num, adjusted_quantity := d.quantity })

/-- The `for item_dict in project["items"]` loop (lines 194-216): one e-mail
per per-sku entry of the event, in order; a failing item lookup aborts. -/
def sendItemEmails (db : DB) (newProjectName projName : String) (recips : List String) :
    List StolenItem → Option (List Email)
  | [] => some []
  | d :: rest =>
    match emailFor db newProjectName projName recips d with
    | none => none
    | some e => (sendItemEmails db newProjectName projName recips rest).map (e :: ·)

/-- The e-mails for one stolen-from project: resolve the project (line 192,
can raise), compute the recipient list once, then one e-mail per per-sku
entry. -/
def emailsForProject (db : DB) (newProjectName : String) (sp : StolenProject) :
    Option (List Email) :=
  match db.projects.find? (fun p => p.project_id == sp.project_id) with
  | none => none
  | some proj =>
    sendItemEmails db newProjectName proj.project_name (recipientsFor db sp.project_id) sp.items

/-- The `for project in stolen_projects` loop (lines 181-216). -/
def buildEmails (db : DB) (newProjectName : String) :
    List StolenProject → Option (List Email)
  | [] => some []
  | sp :: rest =>
    match emailsForProject db newProjectName sp with
    | none => none
    | some es => (buildEmails db newProjectName rest).map (es ++ ·)

/-- Modelled from the spec: `update_item_quantities` is called by
`confirm_checkout` (line 220) but defined outside the provided sources.
Section 4.4 of the spec says the post-loop step recomputes
`Item.total_quantity` for every touched item id from its current
`available_quantity + reserved_quantity`. -/
def update_item_quantities (db : DB) (iid : Nat) (_pid : Nat) : DB :=
  { db with
      items := db.items.map (fun it =>
        if it.item_id == iid then
          { it with total_quantity := it.available_quantity + it.reserved_quantity }
        else it) }

/-- `ItemRoom.objects.filter(all_reserved__lt=1).delete()` (line 230), the
end-of-batch sweep. -/
def pruneZeroReservations (db : DB) : DB :=
  { db with itemRooms := db.itemRooms.filter (fun ir => decide (1 ≤ ir.all_reserved)) }

/-- The request session: the staged checkout unit-id list and the presence
flag of the legacy `checkout_session_items` key. -/
structure Session where
  checkout_session_item_us : Option (List Nat)
  has_checkout_session_items : Bool
deriving Repr, DecidableEq

/-- Result of a `confirm_checkout` request: the success response, the
structured failure response of the fatal "unexpected stage" case, or an
unhandled exception. -/
inductive CheckoutResult where
  | ok (db : DB) (session : Session) (emails : List Email)
  | failed (db : DB) (session : Session)
  | exn
deriving Repr, DecidableEq

/-- Store state carried by a non-exceptional response. -/
def CheckoutResult.dbOf : CheckoutResult → Option DB
  | .ok db _ _ => some db
  | .failed db _ => some db
  | .exn => none

/-- Session state carried by a non-exceptional response. -/
def CheckoutResult.sessionOf : CheckoutResult → Option Session
  | .ok _ s _ => some s
  | .failed _ s => some s
  | .exn => none

/-- E-mails sent by a successful response. -/
def CheckoutResult.emailsOf : CheckoutResult → Option (List Email)
  | .ok _ _ es => some es
  | _ => none

/-- The checkout-confirmation view `confirm_checkout`
(src/inventory_confirm_checkout.py), over an explicit store and session.
Mirrors the source shape: resolve the target project, run the staged-unit
loop, send the stolen-reservation alerts, recompute the touched items'
aggregate quantities, clear the session keys, and sweep zero-reservation
ItemRoom rows.  The fatal case returns before any of the post-loop steps. -/
def confirm_checkout (db : DB) (session : Session) (project_id : Nat) : CheckoutResult :=
  match db.projects.find? (fun p => p.project_id == project_id) with
  | none => .exn
  | some new_project =>
    match session.checkout_session_item_us with
    | none =>
      .ok (pruneZeroReservations db)
        { checkout_session_item_us := none, has_checkout_session_items := false } []
    | some uids =>
      match processUnits project_id
          { db := db, item_id_list := [], stolen_projects := [] } uids with
      | .exn => .exn
      | .fatal st => .failed st.db session
      | .ok st =>
        match buildEmails st.db new_project.project_name st.stolen_projects with
        | none => .exn
        | some emails =>
          let db2 := st.item_id_list.foldl (fun d iid => update_item_quantities d iid project_id) st.db
          .ok (pruneZeroReservations db2)
            { checkout_session_item_us := none, has_checkout_session_items := false } emails

/-! ## The upload diff engine (`add_inventory`, src/inventory_upload.py) -/

/-- Python's whitespace test over the characters `strip()` removes. -/
def isSpaceChar (c : Char) : Bool :=
  c == ' ' || c == '\t' || c == '\n' || c == '\r'

/-- `str.strip()`: drop leading and trailing whitespace.  (Structurally
recursive over the character list so that concrete runs reduce.) -/
def strTrim (s : String) : String :=
  ⟨((s.data.dropWhile isSpaceChar).reverse.dropWhile isSpaceChar).reverse⟩

/-- ASCII lower-casing of one character. -/
def lowerChar (c : Char) : Char :=
  if 65 ≤ c.toNat ∧ c.toNat ≤ 90 then Char.ofNat (c.toNat + 32) else c

/-- `str.lower()` over ASCII identifiers. -/
def strLower (s : String) : String := ⟨s.data.map lowerChar⟩

/-- `.replace('\x22', '')`: drop every double-quote character. -/
def stripQuotes (s : String) : String := ⟨s.data.filter (fun c => !(c == '\x22'))⟩

/-- One data row of the uploaded external report, already parsed out of the
spreadsheet (header normalization, NA handling and embedded images belong to
the excluded parsing layer). -/
structure ExtRow where
  inventory_id : String
  description : String
  selling_price : Int
  total_cost : Int
  vendor : String
  dimensions : String
  sales_code : String
  loc : String
  item_code_1 : String
  item_code_2 : String
  sub_category : String
  quantity_available : Int
  quantity_ordered : Int
deriving Repr, DecidableEq

/-- Payload staged for a brand-new item (lines 252-270 of `add_inventory`). -/
structure NewItemPayload where
  description : String
  studio_id : String
  sale_price : Int
  unit_cost : Int
  vendor : String
  dimensions : String
  sales_code : String
  loc : String
  item_code_1 : String
  item_code_2 : String
  category : String
  available_quantity : Int
  available_quantity_holder : Int
  total_quantity : Int
  total_quantity_holder : Int
  previous_total_quantity : Int
  previous_total_quantity_holder : Int
deriving Repr, DecidableEq

/-- The four staged change sets stored in session (lines 286-289). -/
structure Bundle where
  new_items : List (String × NewItemPayload)
  items_to_change : List (String × List (String × String))
  items_to_delete : List String
  items_to_subtract : List (String × Int)
deriving Repr, DecidableEq

/-- The two bulk updates run at function entry (lines 14-17): refresh every
item's `total_quantity` from `available + reserved`, then raise
`previous_total_quantity` to `total_quantity` where it fell behind. -/
def rollupItems (db : DB) : DB :=
  let db1 : DB := { db with
    items := db.items.map (fun (it : Item) =>
      { it with total_quantity := it.available_quantity + it.reserved_quantity }) }
  { db1 with
      items := db1.items.map (fun (it : Item) =>
        if it.previous_total_quantity < it.total_quantity then
          { it with previous_total_quantity := it.total_quantity }
        else it) }

/-- The pending-external-sync precondition (lines 28-36): some project has a
completed date, some of its ItemProject rows has a positive checked-out
quantity, and none of its ItemProject rows carries the `99999` holder mark. -/
def pendingSyncBlocked (db : DB) : Bool :=
  db.projects.any (fun p =>
    p.completed_date.isSome
      && db.itemProjects.any (fun ip =>
           ip.project_id == p.project_id && decide (0 < ip.checked_out_quantity))
      && !(db.itemProjects.any (fun ip =>
           ip.project_id == p.project_id && ip.checked_out_quantity_holder == 99999)))

/-- `Inventory Id` normalization used by the duplicate scan (line 83):
lowercase then strip. -/
def normalizeId (s : String) : String := strTrim (strLower s)

/-- The duplicate scan (lines 83-93): every row whose normalized identifier
occurs more than once is flagged; the reported list carries the raw
identifiers, deduplicated. -/
def dupIds (rows : List ExtRow) : List String :=
  ((rows.filter (fun r =>
      decide (1 < rows.countP (fun r2 =>
        normalizeId r2.inventory_id == normalizeId r.inventory_id)))).map
    ExtRow.inventory_id).dedup

/-- `df = df[df["Quantity Ordered"] > 0]` (line 100): only rows with a
positive ordered quantity take part in the diff. -/
def filteredRows (rows : List ExtRow) : List ExtRow :=
  rows.filter (fun r => decide (0 < r.quantity_ordered))

/-- `Items.objects.values_list("studio_id", flat=True).distinct()`
(lines 109-111). -/
def studioIds (db : DB) : List String := (db.items.map Item.studio_id).dedup

/-- The inner loop of the first pass (lines 117-132): walk the items carrying
one absent `studio_id`; a positive-total item with a reserved unit aborts the
diff naming that `studio_id`, a positive-total item without one is staged for
deletion, and a zero-total item is passed over. -/
def checkStudioItems (db : DB) (sid : String) (acc : List String) :
    List Item → Except String (List String)
  | [] => Except.ok acc
  | it :: rest =>
    if 0 < it.available_quantity + it.reserved_quantity then
      if db.itemsU.any (fun u => u.item_id == it.item_id && u.stage == "r") then
        Except.error sid
      else checkStudioItems db sid (acc ++ [it.sku_num]) rest
    else checkStudioItems db sid acc rest

/-- The outer loop of the first pass (lines 115-132): every known
`studio_id` absent from the (filtered) report's stripped identifiers goes
through `checkStudioItems`. -/
def firstPassAux (db : DB) (ids : List String) (acc : List String) :
    List String → Except String (List String)
  | [] => Except.ok acc
  | sid :: rest =>
    if ids.contains sid then firstPassAux db ids acc rest
    else
      match checkStudioItems db sid acc (db.items.filter (fun it => it.studio_id == sid)) with
      | Except.error e => Except.error e
      | Except.ok acc2 => firstPassAux db ids acc2 rest

/-- First pass of the diff: unmatched internal items. -/
def firstPass (db : DB) (frows : List ExtRow) : Except String (List String) :=
  firstPassAux db (frows.map (fun r => strTrim r.inventory_id)) [] (studioIds db)

/-- `(val or "").strip()` — the `norm` helper of the source (lines 137-139). -/
def normField (v : String) : String := strTrim v

/-- `items_to_change.setdefault(sku, {})[field] = value` — set a field of a
per-sku change dict. -/
def setField (fs : List (String × String)) (k v : String) : List (String × String) :=
  if fs.any (fun f => f.1 == k) then fs.map (fun f => if f.1 == k then (k, v) else f)
  else fs ++ [(k, v)]

/-- Register one field change for a sku (the `register_change` helper,
lines 182-183). -/
def registerChange (l : List (String × List (String × String))) (sku k v : String) :
    List (String × List (String × String)) :=
  if l.any (fun e => e.1 == sku) then
    l.map (fun e => if e.1 == sku then (e.1, setField e.2 k v) else e)
  else l ++ [(sku, [(k, v)])]

/-- The per-field comparison ladder for a matched item (lines 186-205), as
the list of `(field, new value)` pairs that differ.  Monetary fields are
integers, so the round-to-2-decimals comparison is plain equality; the
`dimensions` comparison strips double-quote characters on both sides. -/
def fieldChanges (item : Item) (row : ExtRow) : List (String × String) :=
  (if normField item.description != strTrim row.description then
    [("description", strTrim row.description)] else [])
  ++ (if item.sale_price != row.selling_price then
    [("sale_price", toString row.selling_price)] else [])
  ++ (if item.unit_cost != row.total_cost then
    [("unit_cost", toString row.total_cost)] else [])
  ++ (if normField item.vendor != strTrim row.vendor then
    [("vendor", strTrim row.vendor)] else [])
  ++ (if stripQuotes (normField item.dimensions) != stripQuotes (strTrim row.dimensions) then
    [("dimensions", strTrim row.dimensions)] else [])
  ++ (if normField item.sales_code != strTrim row.sales_code then
    [("sales_code", strTrim row.sales_code)] else [])
  ++ (if normField item.loc != strTrim row.loc then
    [("location", strTrim row.loc)] else [])
  ++ (if normField item.item_code_1 != strTrim row.item_code_1 then
    [("item_code_1", strTrim row.item_code_1)] else [])
  ++ (if normField item.item_code_2 != strTrim row.item_code_2 then
    [("item_code_2", strTrim row.item_code_2)] else [])
  ++ (if normField item.category != strTrim row.sub_category then
    [("category", strTrim row.sub_category)] else [])

/-- The quantity-consistency fixes for a matched item (lines 165-179); with
non-null integer columns only the `available + reserved != total` repair can
fire, and it is saved back to the store. -/
def fixItemQuantities (db : DB) (item : Item) : DB × Item :=
  if item.available_quantity + item.reserved_quantity != item.total_quantity then
    let item2 := { item with
      total_quantity := item.available_quantity + item.reserved_quantity }
    ({ db with
        items := db.items.map (fun it => if it.item_id == item2.item_id then item2 else it) },
      item2)
  else (db, item)

/-- `items_to_subtract[sku] = q` — dict assignment. -/
def setSubtract (l : List (String × Int)) (sku : String) (q : Int) : List (String × Int) :=
  if l.any (fun e => e.1 == sku) then l.map (fun e => if e.1 == sku then (sku, q) else e)
  else l ++ [(sku, q)]

/-- The matched-item arm of the second pass (lines 160-225): record field
changes, then either request labels for a quantity increase (an external side
effect, no staging) or stage a quantity reduction. -/
def processRowExisting (item : Item) (row : ExtRow) (b : Bundle) : Bundle :=
  let b1 := (fieldChanges item row).foldl
    (fun (acc : Bundle) kv =>
      { acc with items_to_change := registerChange acc.items_to_change item.sku_num kv.1 kv.2 })
    b
  if item.previous_total_quantity < row.quantity_available then b1
  else if row.quantity_available < item.total_quantity then
    { b1 with
        items_to_subtract := setSubtract b1.items_to_subtract item.sku_num
          (item.total_quantity - row.quantity_available) }
  else b1

/-- `new_items[sku] = v` — dict assignment. -/
def setNewItem (l : List (String × NewItemPayload)) (sku : String) (v : NewItemPayload) :
    List (String × NewItemPayload) :=
  if l.any (fun e => e.1 == sku) then l.map (fun e => if e.1 == sku then (sku, v) else e)
  else l ++ [(sku, v)]

/-- The unmatched-row arm of the second pass (lines 227-273): stage a
brand-new item with all six quantity mirrors initialized to the reported
available count.  The random-sku retry loop is modelled by the oracle
`skuSupply`, which yields the accepted non-colliding sku for the n-th new
row. -/
def processRowNew (skuSupply : Nat → String) (idx : Nat) (row : ExtRow) (b : Bundle) :
    Bundle × Nat :=
  let labels_needed := row.quantity_available
  let sku := skuSupply idx
  let payload : NewItemPayload :=
    { description := strTrim row.description,
      studio_id := strTrim row.inventory_id,
      sale_price := row.selling_price,
      unit_cost := row.total_cost,
      vendor := strTrim row.vendor,
      dimensions := strTrim row.dimensions,
      sales_code := strTrim row.sales_code,
      loc := strTrim row.loc,
      item_code_1 := strTrim row.item_code_1,
      item_code_2 := strTrim row.item_code_2,
      category := strTrim row.sub_category,
      available_quantity := labels_needed,
      available_quantity_holder := labels_needed,
      total_quantity := labels_needed,
      total_quantity_holder := labels_needed,
      previous_total_quantity := labels_needed,
      previous_total_quantity_holder := labels_needed }
  ({ b with new_items := setNewItem b.new_items sku payload }, idx + 1)

/-- The second pass (lines 142-273): walk every filtered report row, matching
it to an item by stripped `Inventory Id` against `studio_id`. -/
def secondPassAux (skuSupply : Nat → String) :
    List ExtRow → DB → Bundle → Nat → DB × Bundle
  | [], db, b, _ => (db, b)
  | row :: rest, db, b, idx =>
    match db.items.find? (fun it => it.studio_id == strTrim row.inventory_id) with
    | some item =>
      let p := fixItemQuantities db item
      secondPassAux skuSupply rest p.1 (processRowExisting p.2 row b) idx
    | none =>
      let p := processRowNew skuSupply idx row b
      secondPassAux skuSupply rest db p.1 p.2

/-- Second pass over the filtered rows, starting from the deletions staged by
the first pass. -/
def secondPass (db : DB) (frows : List ExtRow) (dels : List String)
    (skuSupply : Nat → String) : DB × Bundle :=
  secondPassAux skuSupply frows db
    { new_items := [], items_to_change := [], items_to_delete := dels,
      items_to_subtract := [] } 0

/-- Outcome of an `add_inventory` request. -/
inductive UploadOutcome where
  | blockedSync
  | blockedManual
  | dupError (ids : List String)
  | conflict (sid : String)
  | ok (changes : Bool) (bundle : Bundle)
deriving Repr, DecidableEq

/-- Result of an `add_inventory` request: the response, the store after the
request, and the staged bundle written to the session (`none` on every error
path, since the source returns before the session writes). -/
structure UploadResult where
  outcome : UploadOutcome
  db : DB
  staged : Option Bundle
deriving Repr, DecidableEq

/-- The two diff passes over the filtered rows, and the `changes_detected`
flag (lines 113-297): the staged bundle is written to the session only when
no irreconcilable conflict aborted the first pass. -/
def diffCore (db1 : DB) (skuSupply : Nat → String) (frows : List ExtRow) : UploadResult :=
  match firstPass db1 frows with
  | Except.error sid => { outcome := .conflict sid, db := db1, staged := none }
  | Except.ok dels =>
    let p := secondPass db1 frows dels skuSupply
    let b := p.2
    let changes := !(b.new_items.isEmpty && b.items_to_change.isEmpty
      && b.items_to_delete.isEmpty && b.items_to_subtract.isEmpty)
    { outcome := .ok changes b, db := p.1, staged := some b }

/-- The upload view `add_inventory` (src/inventory_upload.py), over an
explicit store.  `manualChangesPending` models the
`manual_quantity_changes.csv` filesystem check (lines 43-48); the request
method/file checks, the audit copy on disk, the image map and the QR-label /
PDF generation are external side effects outside the data contract. -/
def add_inventory (db : DB) (manualChangesPending : Bool) (skuSupply : Nat → String)
    (rows : List ExtRow) : UploadResult :=
  let db1 := rollupItems db
  if pendingSyncBlocked db1 then
    { outcome := .blockedSync, db := db1, staged := none }
  else if manualChangesPending then
    { outcome := .blockedManual, db := db1, staged := none }
  else
    let ds := dupIds rows
    if !ds.isEmpty then
      { outcome := .dupError ds, db := db1, staged := none }
    else
      diffCore db1 skuSupply (filteredRows rows)

/-! ## Observers used to state the claims -/

/-- Stage and project of the unit with key `uid`. -/
def unitState (db : DB) (uid : Nat) : Option (String × Option Nat) :=
  (db.itemsU.find? (fun u => u.item_u_id == uid)).map (fun u => (u.stage, u.project_id))

/-- `reserved_quantity` of the ItemProject aggregate row for `(iid, pid)`. -/
def ipReserved (db : DB) (iid pid : Nat) : Option Int :=
  (db.itemProjects.find? (fun ip => ip.item_id == iid && ip.project_id == pid)).map
    ItemProject.reserved_quantity

/-- `(item_quantity, all_reserved)` of the ItemRoom row for `(iid, rid)`. -/
def irQty (db : DB) (iid rid : Nat) : Option (Int × Int) :=
  (db.itemRooms.find? (fun ir => ir.item_id == iid && ir.room_id == rid)).map
    (fun ir => (ir.item_quantity, ir.all_reserved))

/-- Number of stolen-reservation event entries recorded for `(pid, sku)`:
the claims about non-duplication say this is `1`. -/
def stolenEventCount (l : List StolenProject) (pid : Nat) (sku : String) : Nat :=
  ((l.filter (fun p => p.project_id == pid)).map
    (fun p => p.items.countP (fun d => d.sku_num == sku))).sum

/-- Quantity carried by the first stolen-reservation event entry for
`(pid, sku)`. -/
def stolenQty (l : List StolenProject) (pid : Nat) (sku : String) : Option Nat :=
  match l.find? (fun p => p.project_id == pid) with
  | none => none
  | some p => (p.items.find? (fun d => d.sku_num == sku)).map StolenItem.quantity

/-! ## Concrete states used by the witnesses and counterexamples -/

/-- An item with all descriptive fields blank and all quantities given. -/
def mkItem (iid : Nat) (sku sid : String) (avail resv tot prev : Int) : Item :=
  { item_id := iid, sku_num := sku, studio_id := sid, description := "",
    sale_price := 0, unit_cost := 0, vendor := "", dimensions := "",
    sales_code := "", loc := "", item_code_1 := "", item_code_2 := "",
    category := "", available_quantity := avail, reserved_quantity := resv,
    total_quantity := tot, previous_total_quantity := prev }

/-- The empty store. -/
def emptyDB : DB :=
  { items := [], itemsU := [], rooms := [], itemRooms := [], itemProjects := [],
    projects := [], users := [], userProjects := [], nextRoomId := 1000 }

/-- C1 state: project 1 owns room 5; item 100 has an ItemRoom row of
quantity 3 in room 5 and a (deliberately stale) aggregate of 0; unit 10 is
reserved to project 1 itself. -/
def c1db : DB := { emptyDB with
  items := [mkItem 100 "S100" "X100" 0 3 3 3],
  itemsU := [{ item_u_id := 10, item_id := 100, stage := "r", project_id := some 1 }],
  rooms := [{ room_id := 5, project_id := 1, room_name := "Unassigned" }],
  itemRooms := [{ item_id := 100, room_id := 5, item_quantity := 3,
                  item_quantity_holder := 3, all_reserved := 3 }],
  itemProjects := [{ item_id := 100, project_id := 1, reserved_quantity := 0,
                     checked_out_quantity := 0, checked_out_quantity_holder := 0 }],
  projects := [{ project_id := 1, project_name := "P", completed_date := none }] }

/-- The session holding the single staged unit 10. -/
def c1sess : Session :=
  { checkout_session_item_us := some [10], has_checkout_session_items := false }

/-- The staged unit of `c1db`. -/
def c1u : ItemsU := { item_u_id := 10, item_id := 100, stage := "r", project_id := some 1 }

/-- The item of `c1db`. -/
def c1item : Item := mkItem 100 "S100" "X100" 0 3 3 3

/-- C3 state: three available/checked-out units of item 100 staged as a
batch [10, 11, 12]; the middle unit 11 is already in stage "c". -/
def c3db : DB := { emptyDB with
  items := [mkItem 100 "S100" "X100" 3 0 3 3],
  itemsU := [{ item_u_id := 10, item_id := 100, stage := "a", project_id := none },
             { item_u_id := 11, item_id := 100, stage := "c", project_id := some 1 },
             { item_u_id := 12, item_id := 100, stage := "a", project_id := none }],
  projects := [{ project_id := 1, project_name := "P", completed_date := none }] }

/-- The session holding the staged batch [10, 11, 12]. -/
def c3sess : Session :=
  { checkout_session_item_us := some [10, 11, 12], has_checkout_session_items := false }

/-- The loop state after the prefix [10] of the C3 batch: unit 10 committed,
project 1's Unassigned room auto-created as room 1000 with one unit in it. -/
def c3st1 : LoopState :=
  { db := { emptyDB with
      items := [mkItem 100 "S100" "X100" 3 0 3 3],
      itemsU := [{ item_u_id := 10, item_id := 100, stage := "c", project_id := some 1 },
                 { item_u_id := 11, item_id := 100, stage := "c", project_id := some 1 },
                 { item_u_id := 12, item_id := 100, stage := "a", project_id := none }],
      rooms := [{ room_id := 1000, project_id := 1, room_name := "Unassigned" }],
      itemRooms := [{ item_id := 100, room_id := 1000, item_quantity := 1,
                      item_quantity_holder := 1, all_reserved := 1 }],
      itemProjects := [{ item_id := 100, project_id := 1, reserved_quantity := 1,
                         checked_out_quantity := 0, checked_out_quantity_holder := 0 }],
      projects := [{ project_id := 1, project_name := "P", completed_date := none }],
      nextRoomId := 1001 },
    item_id_list := [100],
    stolen_projects := [] }

/-- The middle unit of the C3 batch. -/
def c3u : ItemsU := { item_u_id := 11, item_id := 100, stage := "c", project_id := some 1 }

/-- C8 state: one ItemRoom row with `all_reserved = 0` but positive quantity,
one healthy row. -/
def c8db : DB := { emptyDB with
  itemRooms := [{ item_id := 100, room_id := 5, item_quantity := 2,
                  item_quantity_holder := 2, all_reserved := 0 },
                { item_id := 100, room_id := 6, item_quantity := 1,
                  item_quantity_holder := 1, all_reserved := 2 }],
  projects := [{ project_id := 1, project_name := "P", completed_date := none }] }

/-- An empty session (no staged checkout list). -/
def emptySess : Session :=
  { checkout_session_item_us := none, has_checkout_session_items := false }

/-- C4 batch state: units 10 (item 100) and 20 (item 200) are both reserved
by project 2 ("Q") and both get claimed by project 1 ("P") in one batch. -/
def c4db : DB := { emptyDB with
  items := [mkItem 100 "S100" "X100" 0 3 3 3, mkItem 200 "S200" "X200" 0 3 3 3],
  itemsU := [{ item_u_id := 10, item_id := 100, stage := "r", project_id := some 2 },
             { item_u_id := 20, item_id := 200, stage := "r", project_id := some 2 }],
  rooms := [{ room_id := 5, project_id := 1, room_name := "Unassigned" },
            { room_id := 6, project_id := 2, room_name := "Main" }],
  itemRooms := [{ item_id := 100, room_id := 6, item_quantity := 2,
                  item_quantity_holder := 2, all_reserved := 2 },
                { item_id := 200, room_id := 6, item_quantity := 2,
                  item_quantity_holder := 2, all_reserved := 2 },
                { item_id := 100, room_id := 5, item_quantity := 1,
                  item_quantity_holder := 1, all_reserved := 1 },
                { item_id := 200, room_id := 5, item_quantity := 1,
                  item_quantity_holder := 1, all_reserved := 1 }],
  itemProjects := [{ item_id := 100, project_id := 1, reserved_quantity := 1,
                     checked_out_quantity := 0, checked_out_quantity_holder := 0 },
                   { item_id := 200, project_id := 1, reserved_quantity := 1,
                     checked_out_quantity := 0, checked_out_quantity_holder := 0 },
                   { item_id := 100, project_id := 2, reserved_quantity := 2,
                     checked_out_quantity := 0, checked_out_quantity_holder := 0 },
                   { item_id := 200, project_id := 2, reserved_quantity := 2,
                     checked_out_quantity := 0, checked_out_quantity_holder := 0 }],
  projects := [{ project_id := 1, project_name := "P", completed_date := none },
               { project_id := 2, project_name := "Q", completed_date := none }],
  users := [{ user_id := 1, email := "q1@x", is_superuser := false },
            { user_id := 2, email := "root@x", is_superuser := true }],
  userProjects := [{ user_id := 1, project_id := 2 }] }

/-- The session holding the staged C4 batch [10, 20]. -/
def c4sess : Session :=
  { checkout_session_item_us := some [10, 20], has_checkout_session_items := false }

/-- C4 witness store: the two items, the losing project 2 ("Q"), one of its
users and one superuser. -/
def c4wdb : DB := { emptyDB with
  items := [mkItem 100 "S100" "X100" 0 0 0 0, mkItem 200 "S200" "X200" 0 0 0 0],
  projects := [{ project_id := 2, project_name := "Q", completed_date := none }],
  users := [{ user_id := 1, email := "q1@x", is_superuser := false },
            { user_id := 2, email := "root@x", is_superuser := true }],
  userProjects := [{ user_id := 1, project_id := 2 }] }

/-- A stolen-reservation event list with two skus for the same project. -/
def c4stolen : List StolenProject :=
  [{ project_id := 2,
     items := [{ sku_num := "S100", quantity := 1 }, { sku_num := "S200", quantity := 3 }] }]

/-- The e-mails produced for `c4stolen` over `c4wdb`. -/
def c4es : List Email :=
  [{ recipients := ["q1@x", "root@x"], new_project_name := "P", project_name := "Q",
     sku := "S100", adjusted_quantity := 1 },
   { recipients := ["q1@x", "root@x"], new_project_name := "P", project_name := "Q",
     sku := "S200", adjusted_quantity := 3 }]

/-- A report row with every descriptive field blank. -/
def mkRow (inv : String) (avail ordered : Int) : ExtRow :=
  { inventory_id := inv, description := "", selling_price := 0, total_cost := 0,
    vendor := "", dimensions := "", sales_code := "", loc := "", item_code_1 := "",
    item_code_2 := "", sub_category := "", quantity_available := avail,
    quantity_ordered := ordered }

/-- C7 state: one stored item whose `total_quantity` and
`previous_total_quantity` are stale (0 instead of 3). -/
def c7db : DB := { emptyDB with items := [mkItem 100 "S100" "X100" 2 1 0 0] }

/-- C7 report: two rows sharing the identifier "X100". -/
def c7rows : List ExtRow := [mkRow "X100" 3 1, mkRow "X100" 3 1]

/-- C5 state: one stored item, zero quantities everywhere, no units. -/
def c5db : DB := { emptyDB with items := [mkItem 100 "S100" "X100" 0 0 0 0] }

/-- C5 witness state: one stored item with two available units and none
reserved. -/
def c5wdb : DB := { emptyDB with
  items := [mkItem 100 "S100" "X100" 2 0 2 2],
  itemsU := [{ item_u_id := 10, item_id := 100, stage := "a", project_id := none }] }

/-- The continuing-state projection of a step outcome. -/
def stepOf : StepResult → Option LoopState
  | .ok st => some st
  | _ => none

/-- A store whose unit 10 (item 100) is staged `moving` on project 1, with a
second unit 11 of the same item still `available`, project 1's Unassigned
room 5 holding one copy, and a synced aggregate row. -/
def c6db : DB := { emptyDB with
  items := [mkItem 100 "S100" "X100" 1 1 2 2],
  itemsU := [{ item_u_id := 10, item_id := 100, stage := "m", project_id := some 1 },
             { item_u_id := 11, item_id := 100, stage := "a", project_id := none }],
  rooms := [{ room_id := 5, project_id := 1, room_name := "Unassigned" }],
  itemRooms := [{ item_id := 100, room_id := 5, item_quantity := 1,
                  item_quantity_holder := 1, all_reserved := 1 }],
  itemProjects := [{ item_id := 100, project_id := 1, reserved_quantity := 1,
                     checked_out_quantity := 0, checked_out_quantity_holder := 0 }],
  projects := [{ project_id := 1, project_name := "P", completed_date := none }] }

/-- A store for the no-Q-row steal: unit 10 of item 100 is reserved by
project 2, which owns no room at all, so no ItemRoom row of the item lies in
project 2; project 2's aggregate row carries a stale value 5 that the claim
says must survive untouched. -/
def c9db : DB := { emptyDB with
  items := [mkItem 100 "S100" "X100" 0 2 2 2],
  itemsU := [{ item_u_id := 10, item_id := 100, stage := "r", project_id := some 2 }],
  rooms := [{ room_id := 5, project_id := 1, room_name := "Unassigned" }],
  itemRooms := [{ item_id := 100, room_id := 5, item_quantity := 1,
                  item_quantity_holder := 1, all_reserved := 1 }],
  itemProjects := [{ item_id := 100, project_id := 1, reserved_quantity := 1,
                     checked_out_quantity := 0, checked_out_quantity_holder := 0 },
                   { item_id := 100, project_id := 2, reserved_quantity := 5,
                     checked_out_quantity := 0, checked_out_quantity_holder := 0 }],
  projects := [{ project_id := 1, project_name := "P", completed_date := none },
               { project_id := 2, project_name := "Q", completed_date := none }],
  users := [{ user_id := 1, email := "q1@x", is_superuser := false }],
  userProjects := [{ user_id := 1, project_id := 2 }] }

/-! ## Theorems -/

/-- **C1, counterexample.**  The claim says a unit reserved to the target
project itself gets the same Ledger update as the available case — an
increment of the ItemRoom row for project 1's Unassigned room (room 5, so
quantity 3 would become 4) and a recomputation of the ItemProject aggregate
(the stale 0 would become the room sum).  Running `confirm_checkout` on
`c1db` instead leaves the ItemRoom row at (3, 3) and the aggregate at 0,
while the unit does reach stage "c" on project 1: the same-project reserved
case performs no Ledger update at all. -/
theorem C1_counterexample :
    (confirm_checkout c1db c1sess 1).dbOf.map
        (fun d => (irQty d 100 5, ipReserved d 100 1, unitState d 10))
      = some (some (3, 3), some 0, some ("c", some 1)) := by decide

/-- **C1, amended.**  For every unit in stage reserved whose `project_id`
equals the target project, `confirm_checkout`'s per-unit step performs no
Ledger update at all: the store is unchanged except that the unit itself is
marked checked out to the target project, and no stolen-reservation event is
recorded. -/
theorem C1_same_project_reserved_is_plain_claim
    (pid uid : Nat) (st : LoopState) (u : ItemsU) (it : Item)
    (hu : st.db.itemsU.find? (fun x => x.item_u_id == uid) = some u)
    (hstage : u.stage = "r") (hproj : u.project_id = some pid)
    (hit : st.db.items.find? (fun x => x.item_id == u.item_id) = some it) :
    processUnit pid st uid = StepResult.ok
      { db := { st.db with itemsU := st.db.itemsU.map (fun x =>
          if x.item_u_id == uid then { x with stage := "c", project_id := some pid } else x) },
        item_id_list := st.item_id_list ++ [u.item_id],
        stolen_projects := st.stolen_projects } := by
  unfold processUnit
  rw [hu]
  simp [hit, hstage, hproj, commitUnit]

/-- **C1, witness.**  The amended theorem applied to the concrete state
`c1db`. -/
theorem C1_same_project_reserved_is_plain_claim_witness :
    processUnit 1 { db := c1db, item_id_list := [], stolen_projects := [] } 10
      = StepResult.ok
        { db := { c1db with itemsU := c1db.itemsU.map (fun x =>
            if x.item_u_id == 10 then { x with stage := "c", project_id := some 1 } else x) },
          item_id_list := [100],
          stolen_projects := [] } :=
  C1_same_project_reserved_is_plain_claim 1 10
    { db := c1db, item_id_list := [], stolen_projects := [] } c1u c1item rfl rfl rfl rfl

/-- Splitting the staged-unit loop at a concatenation: the tail only runs
when the prefix finishes normally. -/
theorem processUnits_append (pid : Nat) (l1 l2 : List Nat) (st : LoopState) :
    processUnits pid st (l1 ++ l2)
      = match processUnits pid st l1 with
        | .ok st2 => processUnits pid st2 l2
        | r => r := by
  induction l1 generalizing st with
  | nil => simp [processUnits]
  | cons uid rest ih =>
    simp only [List.cons_append, processUnits]
    cases processUnit pid st uid with
    | ok st2 => exact ih st2
    | fatal st2 => rfl
    | exn => rfl

/-- A unit found in none of the stages "a" / "r" / "m" triggers the fatal
early return, with the store untouched by this step. -/
theorem processUnit_fatal (pid uid : Nat) (st : LoopState) (u : ItemsU) (it : Item)
    (hu : st.db.itemsU.find? (fun x => x.item_u_id == uid) = some u)
    (hit : st.db.items.find? (fun x => x.item_id == u.item_id) = some it)
    (h1 : u.stage ≠ "a") (h2 : u.stage ≠ "r") (h3 : u.stage ≠ "m") :
    processUnit pid st uid
      = StepResult.fatal { st with item_id_list := st.item_id_list ++ [u.item_id] } := by
  unfold processUnit
  rw [hu]
  simp [hit, h1, h2, h3]

/-- **C3.**  When some staged unit is found in an unexpected stage (neither
available, reserved nor moving), `confirm_checkout` halts at that unit and
returns the structured failure response: the store is exactly the state
`st1` reached after the earlier units of the batch (their mutations are
kept), the units after it are never processed (the result does not depend on
`l2`), and the session — in particular the staged unit list — is returned
unchanged. -/
theorem C3_unexpected_stage_halts_batch (db : DB) (sess : Session) (pid uid : Nat)
    (l1 l2 : List Nat) (np : Project) (st1 : LoopState) (u : ItemsU) (it : Item)
    (hproj : db.projects.find? (fun p => p.project_id == pid) = some np)
    (hsess : sess.checkout_session_item_us = some (l1 ++ uid :: l2))
    (hpre : processUnits pid { db := db, item_id_list := [], stolen_projects := [] } l1
      = StepResult.ok st1)
    (hu : st1.db.itemsU.find? (fun x => x.item_u_id == uid) = some u)
    (hit : st1.db.items.find? (fun x => x.item_id == u.item_id) = some it)
    (h1 : u.stage ≠ "a") (h2 : u.stage ≠ "r") (h3 : u.stage ≠ "m") :
    confirm_checkout db sess pid = CheckoutResult.failed st1.db sess := by
  unfold confirm_checkout
  rw [hproj]
  simp only [hsess, processUnits_append, hpre, processUnits,
    processUnit_fatal pid uid st1 u it hu hit h1 h2 h3]

/-- **C3, witness.**  The theorem applied to the concrete batch [10, 11, 12]
of `c3db`, whose middle unit is already checked out: the response is the
failure case, the store is the post-prefix state `c3st1.db` (unit 10's
mutations committed, unit 12 untouched), and the staged list survives in the
session. -/
theorem C3_unexpected_stage_halts_batch_witness :
    confirm_checkout c3db c3sess 1 = CheckoutResult.failed c3st1.db c3sess :=
  C3_unexpected_stage_halts_batch c3db c3sess 1 11 [10] [12]
    { project_id := 1, project_name := "P", completed_date := none }
    c3st1 c3u (mkItem 100 "S100" "X100" 3 0 3 3)
    rfl rfl (by decide) rfl rfl (by decide) (by decide) (by decide)

/-- Rows surviving the end-of-batch sweep all have `all_reserved ≥ 1`. -/
theorem prune_no_dead_rows (db : DB) :
    (pruneZeroReservations db).itemRooms.filter (fun ir => decide (ir.all_reserved < 1)) = [] := by
  rw [List.filter_eq_nil_iff]
  intro ir hir
  simp only [pruneZeroReservations, List.mem_filter, decide_eq_true_eq] at hir
  simp only [decide_eq_true_eq]
  omega

/-- **C8.**  Every successful `confirm_checkout` response leaves no ItemRoom
row with `all_reserved < 1`: the final sweep runs on every success path
(with or without a staged list), independently of the per-row deletes done
during the batch, and removes such rows even when their `item_quantity` is
still positive. -/
theorem C8_end_of_batch_sweep (db : DB) (sess : Session) (pid : Nat)
    (d : DB) (s : Session) (es : List Email)
    (h : confirm_checkout db sess pid = CheckoutResult.ok d s es) :
    d.itemRooms.filter (fun ir => decide (ir.all_reserved < 1)) = [] := by
  unfold confirm_checkout at h
  split at h
  · exact absurd h (by simp)
  · split at h
    · injection h with h1 h2 h3
      subst h1
      exact prune_no_dead_rows db
    · split at h
      · exact absurd h (by simp)
      · exact absurd h (by simp)
      · split at h
        · exact absurd h (by simp)
        · injection h with h1 h2 h3
          subst h1
          exact prune_no_dead_rows _

/-- **C8, witness.**  The theorem applied to `c8db`, whose store contains a
row with `all_reserved = 0` and positive `item_quantity`. -/
theorem C8_end_of_batch_sweep_witness :
    (pruneZeroReservations c8db).itemRooms.filter (fun ir => decide (ir.all_reserved < 1)) = [] :=
  C8_end_of_batch_sweep c8db emptySess 1 (pruneZeroReservations c8db) emptySess [] rfl

/-- Characterization of the per-item e-mail loop: one e-mail per per-sku
entry, in order, all with the same recipient list. -/
theorem sendItemEmails_spec (db : DB) (nm pn : String) (recips : List String) :
    ∀ (items : List StolenItem) (es : List Email),
      sendItemEmails db nm pn recips items = some es →
      es.length = items.length ∧
      ∀ e ∈ es, ∃ d ∈ items,
        e = { recipients := recips, new_project_name := nm, project_name := pn,
              sku := d.sku_num, adjusted_quantity := d.quantity } := by
  intro items
  induction items with
  | nil =>
    intro es h
    simp only [sendItemEmails, Option.some.injEq] at h
    subst h
    simp
  | cons d rest ih =>
    intro es h
    simp only [sendItemEmails] at h
    cases hf : emailFor db nm pn recips d with
    | none => rw [hf] at h; exact absurd h (by simp)
    | some e =>
      rw [hf] at h
      cases hr : sendItemEmails db nm pn recips rest with
      | none => rw [hr] at h; exact absurd h (by simp)
      | some es2 =>
        rw [hr] at h
        simp only [Option.map_some', Option.some.injEq] at h
        subst h
        obtain ⟨hlen, hall⟩ := ih es2 hr
        refine ⟨by simp [hlen], ?_⟩
        intro e2 he2
        rcases List.mem_cons.mp he2 with h1 | h2
        · subst h1
          unfold emailFor at hf
          cases hfind : db.items.find? (fun it => it.sku_num == d.sku_num) with
          | none => rw [hfind] at hf; exact absurd hf (by simp)
          | some it =>
            rw [hfind] at hf
            simp only [Option.map_some', Option.some.injEq] at hf
            exact ⟨d, by simp, hf.symm⟩
        · obtain ⟨d2, hd2, he⟩ := hall e2 h2
          exact ⟨d2, by simp [hd2], he⟩

/-- Characterization of the whole notification stage (lines 181-216 of
`confirm_checkout`): the number of e-mails is the total number of per-sku
entries across the stolen-reservation events — one e-mail per
(project, sku) pair, not one per project — and every e-mail carries its
event's project name, sku, per-sku quantity, and that project's recipient
list. -/
theorem buildEmails_spec (db : DB) (nm : String) :
    ∀ (stolen : List StolenProject) (es : List Email),
      buildEmails db nm stolen = some es →
      es.length = (stolen.map (fun sp => sp.items.length)).sum ∧
      ∀ e ∈ es, ∃ sp ∈ stolen, ∃ proj,
        db.projects.find? (fun p => p.project_id == sp.project_id) = some proj ∧
        ∃ d ∈ sp.items,
          e = { recipients := recipientsFor db sp.project_id, new_project_name := nm,
                project_name := proj.project_name, sku := d.sku_num,
                adjusted_quantity := d.quantity } := by
  intro stolen
  induction stolen with
  | nil =>
    intro es h
    simp only [buildEmails, Option.some.injEq] at h
    subst h
    simp
  | cons sp rest ih =>
    intro es h
    simp only [buildEmails] at h
    cases hf : emailsForProject db nm sp with
    | none => rw [hf] at h; exact absurd h (by simp)
    | some es1 =>
      rw [hf] at h
      cases hr : buildEmails db nm rest with
      | none => rw [hr] at h; exact absurd h (by simp)
      | some es2 =>
        rw [hr] at h
        simp only [Option.map_some', Option.some.injEq] at h
        subst h
        obtain ⟨hlen2, hall2⟩ := ih es2 hr
        unfold emailsForProject at hf
        cases hproj : db.projects.find? (fun p => p.project_id == sp.project_id) with
        | none => rw [hproj] at hf; exact absurd hf (by simp)
        | some proj =>
          rw [hproj] at hf
          obtain ⟨hlen1, hall1⟩ := sendItemEmails_spec db nm proj.project_name
            (recipientsFor db sp.project_id) sp.items es1 hf
          constructor
          · simp [hlen1, hlen2]
          · intro e he
            rcases List.mem_append.mp he with h1 | h2
            · obtain ⟨d, hd, hed⟩ := hall1 e h1
              exact ⟨sp, by simp, proj, hproj, d, hd, hed⟩
            · obtain ⟨sp2, hsp2, proj2, hproj2, d, hd, hed⟩ := hall2 e h2
              exact ⟨sp2, by simp [hsp2], proj2, hproj2, d, hd, hed⟩

/-- The recipient list of a stolen-from project holds exactly the e-mails of
that project's users together with those of all superusers. -/
theorem mem_recipientsFor (db : DB) (pid : Nat) (x : String) :
    x ∈ recipientsFor db pid ↔
      ∃ u ∈ db.users, x = u.email ∧
        (u.is_superuser = true ∨
          ∃ up ∈ db.userProjects, up.user_id = u.user_id ∧ up.project_id = pid) := by
  unfold recipientsFor
  rw [List.mem_dedup, List.mem_append]
  simp only [List.mem_map, List.mem_filter]
  constructor
  · rintro (⟨u, ⟨hu, hcont⟩, hx⟩ | ⟨u, ⟨hu, hsup⟩, hx⟩)
    · replace hcont : u.user_id ∈ (db.userProjects.filter
          (fun up => up.project_id == pid)).map UserProject.user_id := List.elem_iff.mp hcont
      obtain ⟨uid, huid, heq⟩ := List.mem_map.mp hcont
      obtain ⟨hup, hpid⟩ := List.mem_filter.mp huid
      refine ⟨u, hu, hx.symm, Or.inr ⟨uid, hup, ?_, ?_⟩⟩
      · exact heq
      · simpa using hpid
    · exact ⟨u, hu, hx.symm, Or.inl hsup⟩
  · rintro ⟨u, hu, hx, hsup | ⟨up, hup, huid, hpid⟩⟩
    · exact Or.inr ⟨u, ⟨hu, hsup⟩, hx.symm⟩
    · refine Or.inl ⟨u, ⟨hu, ?_⟩, hx.symm⟩
      exact List.elem_iff.mpr
        (List.mem_map.mpr ⟨up, List.mem_filter.mpr ⟨hup, by simp [hpid]⟩, huid⟩)

/-- **C4, counterexample.**  The claim says exactly one notification per
distinct stolen-from project, batched across items.  In the concrete batch
`c4db` / `c4sess`, project 1 steals two different skus from the single
project 2 ("Q"); the run succeeds and emits two e-mails, both naming "Q" as
the losing project — not one. -/
theorem C4_counterexample :
    (confirm_checkout c4db c4sess 1).emailsOf.map
        (fun es => (es.length, (es.map Email.project_name).dedup))
      = some (2, ["Q"]) := by decide

/-- **C4, amended.**  At the end of the request, `confirm_checkout` emits
one notification per (stolen-from project, sku) pair — for each affected
project, one e-mail per distinct sku stolen from it, each carrying that
sku's stolen quantity — and every such e-mail is addressed to the users
associated with the losing project unioned with all super-privileged
users. -/
theorem C4_one_notification_per_project_sku (db : DB) (nm : String)
    (stolen : List StolenProject) (es : List Email)
    (h : buildEmails db nm stolen = some es) :
    es.length = (stolen.map (fun sp => sp.items.length)).sum
    ∧ (∀ e ∈ es, ∃ sp ∈ stolen, ∃ proj,
        db.projects.find? (fun p => p.project_id == sp.project_id) = some proj ∧
        ∃ d ∈ sp.items,
          e = { recipients := recipientsFor db sp.project_id, new_project_name := nm,
                project_name := proj.project_name, sku := d.sku_num,
                adjusted_quantity := d.quantity })
    ∧ (∀ pid x, x ∈ recipientsFor db pid ↔
        ∃ u ∈ db.users, x = u.email ∧
          (u.is_superuser = true ∨
            ∃ up ∈ db.userProjects, up.user_id = u.user_id ∧ up.project_id = pid)) :=
  ⟨(buildEmails_spec db nm stolen es h).1,
   (buildEmails_spec db nm stolen es h).2,
   fun pid x => mem_recipientsFor db pid x⟩

/-- **C4, witness.**  For the concrete event list `c4stolen` (two skus
stolen from project 2) over `c4wdb`, the notification stage produces
`c4es`, whose length is the total per-sku entry count (2). -/
theorem C4_one_notification_per_project_sku_witness :
    c4es.length = (c4stolen.map (fun sp => sp.items.length)).sum :=
  (C4_one_notification_per_project_sku c4wdb "P" c4stolen c4es (by decide)).1

/-- **C7, counterexample.**  The claim says a duplicated identifier leads to
a validation error with "no mutation of stored Items attempted".  On `c7db`
(whose item has a stale `total_quantity`/`previous_total_quantity` of 0) and
the duplicated report `c7rows`, the response is indeed the validation error
naming "X100" with nothing staged — but the stored item has been mutated:
the entry rollup (lines 14-17) already rewrote `(total, previous_total)`
from (0, 0) to (3, 3) before the duplicate scan ran. -/
theorem C7_counterexample :
    ((fun r => (r.outcome, r.staged,
        r.db.items.map (fun it => (it.total_quantity, it.previous_total_quantity))))
      (add_inventory c7db false (fun _ => "99999999") c7rows)
        = (UploadOutcome.dupError ["X100"], none, [(3, 3)]))
    ∧ c7db.items.map (fun it => (it.total_quantity, it.previous_total_quantity))
        = [(0, 0)] := by decide

/-- **C7, amended.**  A snapshot holding two rows with the same identifier
makes `add_inventory` return the duplicate-identifier validation error, with
both duplicated identifiers listed, nothing staged in any of the four change
sets (no bundle is written to the session), and no diff-driven mutation of
stored Items — the store is exactly the input store with only the
entry quantity rollup applied. -/
theorem C7_duplicate_ids_validation (db : DB) (skuSupply : Nat → String)
    (l1 l2 l3 : List ExtRow) (r1 r2 : ExtRow)
    (hsync : pendingSyncBlocked (rollupItems db) = false)
    (heq : r1.inventory_id = r2.inventory_id) :
    ∃ ids,
      add_inventory db false skuSupply (l1 ++ r1 :: l2 ++ r2 :: l3)
        = { outcome := UploadOutcome.dupError ids, db := rollupItems db, staged := none }
      ∧ r1.inventory_id ∈ ids ∧ r2.inventory_id ∈ ids := by
  have hcount : 1 < (l1 ++ r1 :: l2 ++ r2 :: l3).countP
      (fun r => normalizeId r.inventory_id == normalizeId r1.inventory_id) := by
    simp only [List.countP_append, List.countP_cons, heq, beq_self_eq_true, if_true]
    omega
  have hmem1 : r1 ∈ l1 ++ r1 :: l2 ++ r2 :: l3 := by simp
  have hmem2 : r2 ∈ l1 ++ r1 :: l2 ++ r2 :: l3 := by simp
  have hd1 : r1.inventory_id ∈ dupIds (l1 ++ r1 :: l2 ++ r2 :: l3) := by
    unfold dupIds
    rw [List.mem_dedup]
    exact List.mem_map.mpr ⟨r1, List.mem_filter.mpr ⟨hmem1, by simpa using hcount⟩, rfl⟩
  have hd2 : r2.inventory_id ∈ dupIds (l1 ++ r1 :: l2 ++ r2 :: l3) := by
    unfold dupIds
    rw [List.mem_dedup]
    refine List.mem_map.mpr ⟨r2, List.mem_filter.mpr ⟨hmem2, ?_⟩, rfl⟩
    simp only [decide_eq_true_eq]
    rw [← heq]
    exact hcount
  have hne : (dupIds (l1 ++ r1 :: l2 ++ r2 :: l3)).isEmpty = false :=
    List.isEmpty_eq_false.mpr (List.ne_nil_of_mem hd1)
  refine ⟨dupIds (l1 ++ r1 :: l2 ++ r2 :: l3), ?_, hd1, hd2⟩
  simp only [add_inventory]
  rw [hsync, hne]
  simp

/-- **C7, witness.**  The amended theorem applied to `c7db` and the two
duplicated "X100" rows. -/
theorem C7_duplicate_ids_validation_witness :
    (∃ ids,
      add_inventory c7db false (fun _ => "99999999") ([] ++ mkRow "X100" 3 1 :: [] ++ mkRow "X100" 3 1 :: [])
        = { outcome := UploadOutcome.dupError ids, db := rollupItems c7db, staged := none }
      ∧ (mkRow "X100" 3 1).inventory_id ∈ ids ∧ (mkRow "X100" 3 1).inventory_id ∈ ids) :=
  C7_duplicate_ids_validation c7db (fun _ => "99999999") [] [] []
    (mkRow "X100" 3 1) (mkRow "X100" 3 1) (by decide) rfl

/-- When every validation passes, the upload request reduces to the two diff
passes over the filtered rows. -/
theorem add_inventory_unblocked (db : DB) (skuSupply : Nat → String) (rows : List ExtRow)
    (hsync : pendingSyncBlocked (rollupItems db) = false)
    (hdup : dupIds rows = []) :
    add_inventory db false skuSupply rows
      = diffCore (rollupItems db) skuSupply (filteredRows rows) := by
  simp only [add_inventory]
  rw [hsync, hdup]
  simp

/-- A first-pass walk over known `studio_id`s all present in the report stages
nothing and cannot abort. -/
theorem firstPassAux_all_present (db : DB) (ids : List String) :
    ∀ (sids : List String) (acc : List String),
      (∀ sid ∈ sids, ids.contains sid = true) →
      firstPassAux db ids acc sids = Except.ok acc := by
  intro sids
  induction sids with
  | nil => intro acc _; rfl
  | cons s rest ih =>
    intro acc h
    have hs := h s (List.mem_cons_self s rest)
    simp only [firstPassAux, hs, if_true]
    exact ih acc (fun sid hsid => h sid (List.mem_cons_of_mem s hsid))

/-- When exactly one known `studio_id` is absent from the report, the first
pass reduces to the check of that identifier's items. -/
theorem firstPassAux_isolated (db : DB) (ids : List String) (sid0 : String) :
    ∀ (sids : List String) (acc : List String),
      sids.Nodup → sid0 ∈ sids →
      ids.contains sid0 = false →
      (∀ sid ∈ sids, sid ≠ sid0 → ids.contains sid = true) →
      firstPassAux db ids acc sids
        = checkStudioItems db sid0 acc (db.items.filter (fun it2 => it2.studio_id == sid0)) := by
  intro sids
  induction sids with
  | nil => intro acc _ h0; exact absurd h0 (by simp)
  | cons s rest ih =>
    intro acc hnd h0 habs hall
    by_cases hcase : s = sid0
    · subst hcase
      simp only [firstPassAux, habs, Bool.false_eq_true, if_false]
      cases hc : checkStudioItems db s acc (db.items.filter (fun it2 => it2.studio_id == s)) with
      | error e => rfl
      | ok acc2 =>
        refine firstPassAux_all_present db ids rest acc2 ?_
        intro sid hsid
        have hne : sid ≠ s := fun hEq => (List.nodup_cons.mp hnd).1 (hEq ▸ hsid)
        exact hall sid (List.mem_cons_of_mem s hsid) hne
    · have hs : ids.contains s = true := hall s (List.mem_cons_self s rest) hcase
      simp only [firstPassAux, hs, if_true]
      refine ih acc (List.nodup_cons.mp hnd).2 ?_ habs ?_
      · rcases List.mem_cons.mp h0 with h | h
        · exact absurd h.symm hcase
        · exact h
      · intro sid hsid hne
        exact hall sid (List.mem_cons_of_mem s hsid) hne

/-- The per-sku change fold of a matched row never touches the staged
deletions. -/
theorem foldl_registerChange_delete (sku : String) :
    ∀ (l : List (String × String)) (b : Bundle),
      (l.foldl (fun (acc : Bundle) kv =>
        { acc with items_to_change := registerChange acc.items_to_change sku kv.1 kv.2 })
        b).items_to_delete = b.items_to_delete := by
  intro l
  induction l with
  | nil => intro b; rfl
  | cons kv rest ih => intro b; simp only [List.foldl_cons]; rw [ih]

/-- A matched report row never touches the staged deletions. -/
theorem processRowExisting_delete (item : Item) (row : ExtRow) (b : Bundle) :
    (processRowExisting item row b).items_to_delete = b.items_to_delete := by
  unfold processRowExisting
  split
  · exact foldl_registerChange_delete item.sku_num (fieldChanges item row) b
  · split
    · exact foldl_registerChange_delete item.sku_num (fieldChanges item row) b
    · exact foldl_registerChange_delete item.sku_num (fieldChanges item row) b

/-- The second pass never touches the staged deletions produced by the first
pass. -/
theorem secondPassAux_delete (skuSupply : Nat → String) :
    ∀ (rows : List ExtRow) (db : DB) (b : Bundle) (idx : Nat),
      (secondPassAux skuSupply rows db b idx).2.items_to_delete = b.items_to_delete := by
  intro rows
  induction rows with
  | nil => intro db b idx; rfl
  | cons row rest ih =>
    intro db b idx
    simp only [secondPassAux]
    cases h : db.items.find? (fun it => it.studio_id == strTrim row.inventory_id) with
    | some item =>
      rw [ih]
      exact processRowExisting_delete _ row b
    | none =>
      rw [ih]
      rfl

/-- The staged deletions of the final bundle are exactly those of the first
pass. -/
theorem secondPass_delete (db : DB) (frows : List ExtRow) (dels : List String)
    (skuSupply : Nat → String) :
    (secondPass db frows dels skuSupply).2.items_to_delete = dels :=
  secondPassAux_delete skuSupply frows db _ 0

/-- Classification of one internal item absent from the (filtered) report,
when every other known `studio_id` is present: a positive total with a
reserved unit aborts the whole diff naming that item's external identifier,
with nothing staged; a positive total without a reserved unit stages exactly
that item's sku for deletion; a zero (or negative) total stages nothing and
raises nothing. -/
theorem add_inventory_unmatched_spec (db : DB) (skuSupply : Nat → String)
    (rows : List ExtRow) (item : Item)
    (hsync : pendingSyncBlocked (rollupItems db) = false)
    (hdup : dupIds rows = [])
    (hitem : item ∈ (rollupItems db).items)
    (huniq : (rollupItems db).items.filter (fun it2 => it2.studio_id == item.studio_id) = [item])
    (habsent : ((filteredRows rows).map (fun r => strTrim r.inventory_id)).contains
      item.studio_id = false)
    (hothers : ∀ sid ∈ studioIds (rollupItems db), sid ≠ item.studio_id →
      ((filteredRows rows).map (fun r => strTrim r.inventory_id)).contains sid = true) :
    ((0 < item.available_quantity + item.reserved_quantity ∧
        (rollupItems db).itemsU.any
          (fun u => u.item_id == item.item_id && u.stage == "r") = true) →
      add_inventory db false skuSupply rows
        = { outcome := UploadOutcome.conflict item.studio_id, db := rollupItems db,
            staged := none })
    ∧ ((0 < item.available_quantity + item.reserved_quantity ∧
        (rollupItems db).itemsU.any
          (fun u => u.item_id == item.item_id && u.stage == "r") = false) →
      ∃ ch b, add_inventory db false skuSupply rows
          = { outcome := UploadOutcome.ok ch b,
              db := (secondPass (rollupItems db) (filteredRows rows) [item.sku_num] skuSupply).1,
              staged := some b }
        ∧ b.items_to_delete = [item.sku_num])
    ∧ ((item.available_quantity + item.reserved_quantity ≤ 0) →
      ∃ ch b, add_inventory db false skuSupply rows
          = { outcome := UploadOutcome.ok ch b,
              db := (secondPass (rollupItems db) (filteredRows rows) [] skuSupply).1,
              staged := some b }
        ∧ b.items_to_delete = []) := by
  have hmem : item.studio_id ∈ studioIds (rollupItems db) :=
    List.mem_dedup.mpr (List.mem_map.mpr ⟨item, hitem, rfl⟩)
  have hnd : (studioIds (rollupItems db)).Nodup := List.nodup_dedup _
  have hfp : firstPass (rollupItems db) (filteredRows rows)
      = checkStudioItems (rollupItems db) item.studio_id []
          ((rollupItems db).items.filter (fun it2 => it2.studio_id == item.studio_id)) :=
    firstPassAux_isolated (rollupItems db) _ item.studio_id (studioIds (rollupItems db)) []
      hnd hmem habsent hothers
  rw [huniq] at hfp
  rw [add_inventory_unblocked db skuSupply rows hsync hdup]
  refine ⟨?_, ?_, ?_⟩
  · rintro ⟨hpos, hres⟩
    have hck : checkStudioItems (rollupItems db) item.studio_id [] [item]
        = Except.error item.studio_id := by
      unfold checkStudioItems
      rw [if_pos hpos, hres]
      simp
    simp only [diffCore, hfp, hck]
  · rintro ⟨hpos, hres⟩
    have hck : checkStudioItems (rollupItems db) item.studio_id [] [item]
        = Except.ok [item.sku_num] := by
      unfold checkStudioItems
      rw [if_pos hpos, hres]
      simp [checkStudioItems]
    simp only [diffCore, hfp, hck]
    exact ⟨_, _, rfl, secondPass_delete _ _ _ _⟩
  · intro hneg
    have hck : checkStudioItems (rollupItems db) item.studio_id [] [item]
        = Except.ok [] := by
      unfold checkStudioItems
      rw [if_neg (by omega)]
      rfl
    simp only [diffCore, hfp, hck]
    exact ⟨_, _, rfl, secondPass_delete _ _ _ _⟩

/-- **C5, counterexample.**  The claim says an internal item absent from the
snapshot with zero total (and hence no reserved unit) is staged for
deletion.  On `c5db` — one item "X100" with all quantities 0 — and an empty
snapshot, `add_inventory` succeeds with an entirely empty bundle: the
zero-total item is silently skipped, not staged for deletion (lines 118-132
only stage a deletion when `total_quantity > 0`). -/
theorem C5_counterexample :
    ((fun r => (r.outcome, r.staged)) (add_inventory c5db false (fun _ => "99999999") []))
      = (UploadOutcome.ok false
          { new_items := [], items_to_change := [], items_to_delete := [],
            items_to_subtract := [] },
         some ({ new_items := [], items_to_change := [], items_to_delete := [],
                 items_to_subtract := [] } : Bundle)) := by decide

/-- **C5, amended.**  For an internal item absent from the external snapshot
(with every other known identifier present): when its total is positive and
one of its units is reserved, the diff aborts with the irreconcilable
conflict naming that item's external identifier and returns no staged
bundle; when its total is positive with no reserved unit, the item's sku is
staged for deletion and no error is raised; when its total is zero, the item
is skipped entirely — neither staged for deletion nor an error. -/
theorem C5_unmatched_internal_classification (db : DB) (skuSupply : Nat → String)
    (rows : List ExtRow) (item : Item)
    (hsync : pendingSyncBlocked (rollupItems db) = false)
    (hdup : dupIds rows = [])
    (hitem : item ∈ (rollupItems db).items)
    (huniq : (rollupItems db).items.filter (fun it2 => it2.studio_id == item.studio_id) = [item])
    (habsent : ((filteredRows rows).map (fun r => strTrim r.inventory_id)).contains
      item.studio_id = false)
    (hothers : ∀ sid ∈ studioIds (rollupItems db), sid ≠ item.studio_id →
      ((filteredRows rows).map (fun r => strTrim r.inventory_id)).contains sid = true) :
    ((0 < item.available_quantity + item.reserved_quantity ∧
        (rollupItems db).itemsU.any
          (fun u => u.item_id == item.item_id && u.stage == "r") = true) →
      add_inventory db false skuSupply rows
        = { outcome := UploadOutcome.conflict item.studio_id, db := rollupItems db,
            staged := none })
    ∧ ((0 < item.available_quantity + item.reserved_quantity ∧
        (rollupItems db).itemsU.any
          (fun u => u.item_id == item.item_id && u.stage == "r") = false) →
      ∃ ch b, (add_inventory db false skuSupply rows).outcome = UploadOutcome.ok ch b
        ∧ (add_inventory db false skuSupply rows).staged = some b
        ∧ item.sku_num ∈ b.items_to_delete)
    ∧ ((item.available_quantity + item.reserved_quantity ≤ 0) →
      ∃ ch b, (add_inventory db false skuSupply rows).outcome = UploadOutcome.ok ch b
        ∧ (add_inventory db false skuSupply rows).staged = some b
        ∧ item.sku_num ∉ b.items_to_delete) := by
  obtain ⟨h1, h2, h3⟩ :=
    add_inventory_unmatched_spec db skuSupply rows item hsync hdup hitem huniq habsent hothers
  refine ⟨h1, ?_, ?_⟩
  · intro hc
    obtain ⟨ch, b, heq, hdel⟩ := h2 hc
    exact ⟨ch, b, by rw [heq], by rw [heq], by rw [hdel]; exact List.mem_singleton.mpr rfl⟩
  · intro hc
    obtain ⟨ch, b, heq, hdel⟩ := h3 hc
    exact ⟨ch, b, by rw [heq], by rw [heq], by rw [hdel]; exact List.not_mem_nil _⟩

/-- **C5, witness.**  On `c5wdb` (one item with two available units, none
reserved) and an empty snapshot, the sku "S100" is staged for deletion and
the diff succeeds. -/
theorem C5_unmatched_internal_classification_witness :
    ∃ ch b,
      (add_inventory c5wdb false (fun _ => "99999999") []).outcome = UploadOutcome.ok ch b
      ∧ (add_inventory c5wdb false (fun _ => "99999999") []).staged = some b
      ∧ (mkItem 100 "S100" "X100" 2 0 2 2).sku_num ∈ b.items_to_delete :=
  (C5_unmatched_internal_classification c5wdb (fun _ => "99999999") []
      (mkItem 100 "S100" "X100" 2 0 2 2)
      (by decide) rfl (by decide) (by decide) (by decide) (by decide)).2.1
    ⟨by decide, by decide⟩

/-- An identifier-duplicate-free snapshot is one where every row's normalized
identifier occurs at most once. -/
theorem dupIds_eq_nil_iff (rows : List ExtRow) :
    dupIds rows = [] ↔ ∀ r ∈ rows,
      rows.countP (fun r2 => normalizeId r2.inventory_id == normalizeId r.inventory_id) ≤ 1 := by
  unfold dupIds
  rw [List.dedup_eq_nil, List.map_eq_nil_iff, List.filter_eq_nil_iff]
  simp only [decide_eq_true_eq, not_lt]

/-- Removing a row from a duplicate-free snapshot keeps it duplicate-free. -/
theorem dupIds_remove_nil (l1 l2 : List ExtRow) (bad : ExtRow)
    (h : dupIds (l1 ++ bad :: l2) = []) : dupIds (l1 ++ l2) = [] := by
  rw [dupIds_eq_nil_iff] at h ⊢
  intro r hr
  have hr2 : r ∈ l1 ++ bad :: l2 := by
    rcases List.mem_append.mp hr with h1 | h2
    · exact List.mem_append.mpr (Or.inl h1)
    · exact List.mem_append.mpr (Or.inr (List.mem_cons_of_mem bad h2))
  have hsub : (l1 ++ l2).Sublist (l1 ++ bad :: l2) :=
    (List.append_sublist_append_left l1).mpr (List.sublist_cons_self bad l2)
  exact le_trans (List.Sublist.countP_le _ hsub) (h r hr2)

/-- **C10, counterexample.**  The claim says an internal item whose only
external row has a non-positive "Quantity Ordered" is classified as
unmatched internal and — having no reserved unit — staged for deletion.  On
`c5db` (item "X100", zero quantities, no units) and a snapshot whose single
"X100" row has `quantity_ordered = 0`, `add_inventory` succeeds with an
entirely empty bundle: the item is classified as unmatched but, its total
being zero, it is skipped rather than staged for deletion. -/
theorem C10_counterexample :
    ((fun r => (r.outcome, r.staged))
        (add_inventory c5db false (fun _ => "99999999") [mkRow "X100" 3 0]))
      = (UploadOutcome.ok false
          { new_items := [], items_to_change := [], items_to_delete := [],
            items_to_subtract := [] },
         some ({ new_items := [], items_to_change := [], items_to_delete := [],
                 items_to_subtract := [] } : Bundle)) := by decide

/-- **C10, amended.**  A snapshot row with a non-positive "Quantity Ordered"
is dropped by the filter, so the whole diff behaves as if the row were
absent (in particular the row is never staged as a new item and never
compared for field changes); an internal item left unmatched this way is
then classified exactly as in the unmatched-internal case: conflict when its
total is positive and a unit is reserved, staged deletion when its total is
positive and no unit is reserved, and skipped entirely — neither staged nor
an error — when its total is zero. -/
theorem C10_nonpositive_quantity_row_is_absent (db : DB) (skuSupply : Nat → String)
    (l1 l2 : List ExtRow) (bad : ExtRow) (item : Item)
    (hbad : bad.quantity_ordered ≤ 0)
    (hsync : pendingSyncBlocked (rollupItems db) = false)
    (hdup : dupIds (l1 ++ bad :: l2) = [])
    (hitem : item ∈ (rollupItems db).items)
    (huniq : (rollupItems db).items.filter (fun it2 => it2.studio_id == item.studio_id) = [item])
    (habsent : ((filteredRows (l1 ++ bad :: l2)).map (fun r => strTrim r.inventory_id)).contains
      item.studio_id = false)
    (hothers : ∀ sid ∈ studioIds (rollupItems db), sid ≠ item.studio_id →
      ((filteredRows (l1 ++ bad :: l2)).map (fun r => strTrim r.inventory_id)).contains
        sid = true) :
    (bad ∉ filteredRows (l1 ++ bad :: l2))
    ∧ (add_inventory db false skuSupply (l1 ++ bad :: l2)
        = add_inventory db false skuSupply (l1 ++ l2))
    ∧ ((0 < item.available_quantity + item.reserved_quantity ∧
        (rollupItems db).itemsU.any
          (fun u => u.item_id == item.item_id && u.stage == "r") = true) →
      add_inventory db false skuSupply (l1 ++ bad :: l2)
        = { outcome := UploadOutcome.conflict item.studio_id, db := rollupItems db,
            staged := none })
    ∧ ((0 < item.available_quantity + item.reserved_quantity ∧
        (rollupItems db).itemsU.any
          (fun u => u.item_id == item.item_id && u.stage == "r") = false) →
      ∃ ch b, (add_inventory db false skuSupply (l1 ++ bad :: l2)).outcome
          = UploadOutcome.ok ch b
        ∧ (add_inventory db false skuSupply (l1 ++ bad :: l2)).staged = some b
        ∧ item.sku_num ∈ b.items_to_delete)
    ∧ ((item.available_quantity + item.reserved_quantity ≤ 0) →
      ∃ ch b, (add_inventory db false skuSupply (l1 ++ bad :: l2)).outcome
          = UploadOutcome.ok ch b
        ∧ (add_inventory db false skuSupply (l1 ++ bad :: l2)).staged = some b
        ∧ item.sku_num ∉ b.items_to_delete) := by
  have hpredbad : decide (0 < bad.quantity_ordered) = false := by
    simp only [decide_eq_false_iff_not, not_lt]
    exact hbad
  have hfr : filteredRows (l1 ++ bad :: l2) = filteredRows (l1 ++ l2) := by
    unfold filteredRows
    rw [List.filter_append, List.filter_append, List.filter_cons, hpredbad]
    simp
  obtain ⟨h1, h2, h3⟩ :=
    add_inventory_unmatched_spec db skuSupply (l1 ++ bad :: l2) item
      hsync hdup hitem huniq habsent hothers
  refine ⟨?_, ?_, h1, ?_, ?_⟩
  · intro hmem
    have := (List.mem_filter.mp hmem).2
    rw [hpredbad] at this
    exact Bool.false_ne_true this
  · rw [add_inventory_unblocked db skuSupply (l1 ++ bad :: l2) hsync hdup,
      add_inventory_unblocked db skuSupply (l1 ++ l2) hsync (dupIds_remove_nil l1 l2 bad hdup),
      hfr]
  · intro hc
    obtain ⟨ch, b, heq, hdel⟩ := h2 hc
    exact ⟨ch, b, by rw [heq], by rw [heq], by rw [hdel]; exact List.mem_singleton.mpr rfl⟩
  · intro hc
    obtain ⟨ch, b, heq, hdel⟩ := h3 hc
    exact ⟨ch, b, by rw [heq], by rw [heq], by rw [hdel]; exact List.not_mem_nil _⟩

/-- **C10, witness.**  On `c5db` and the single zero-ordered "X100" row, the
run coincides with the run on the empty snapshot. -/
theorem C10_nonpositive_quantity_row_is_absent_witness :
    add_inventory c5db false (fun _ => "99999999") ([] ++ mkRow "X100" 3 0 :: [])
      = add_inventory c5db false (fun _ => "99999999") ([] ++ []) :=
  (C10_nonpositive_quantity_row_is_absent c5db (fun _ => "99999999") [] []
      (mkRow "X100" 3 0) (mkItem 100 "S100" "X100" 0 0 0 0)
      (by decide) (by decide) (by decide) (by decide) (by decide) (by decide)
      (by decide)).2.1

/-! ## Ledger arithmetic lemmas -/

/-- Head unfolding of the room-sum. -/
theorem qtySum_cons (x : ItemRoom) (l : List ItemRoom) (p : ItemRoom → Bool) :
    qtySum (x :: l) p = (if p x = true then x.item_quantity else 0) + qtySum l p := by
  unfold qtySum
  rw [List.filter_cons]
  by_cases h : p x = true
  · simp [h]
  · simp [h]

/-- `first()` is the head of the filtered list. -/
theorem find?_eq_head?_filter {α : Type} (l : List α) (p : α → Bool) :
    l.find? p = (l.filter p).head? := by
  induction l with
  | nil => rfl
  | cons x rest ih =>
    rw [List.filter_cons]
    by_cases h : p x = true
    · rw [List.find?_cons_of_pos rest h, if_pos h]
      rfl
    · rw [List.find?_cons_of_neg rest h, if_neg h, ih]

/-- A predicate whose filtrate is one row holds of no other row. -/
theorem filter_eq_single_unique {α : Type} (l : List α) (k : α → Bool) (x : α)
    (hf : l.filter k = [x]) : ∀ y ∈ l, k y = true → y = x := by
  intro y hy hk
  have : y ∈ l.filter k := List.mem_filter.mpr ⟨hy, hk⟩
  rw [hf] at this
  simpa using this

/-- A keyed update hits nothing when nothing carries the key. -/
theorem map_update_id {α : Type} (l : List α) (k : α → Bool) (g : α → α)
    (h : ∀ y ∈ l, k y = false) :
    l.map (fun y => if k y then g y else y) = l := by
  conv_rhs => rw [← List.map_id l]
  refine List.map_eq_map_iff.mpr ?_
  intro y hy
  rw [h y hy]
  rfl

/-- Effect on the room-sum of updating the single row carrying a key. -/
theorem qtySum_map_update_single (l : List ItemRoom) (k p : ItemRoom → Bool)
    (g : ItemRoom → ItemRoom) (x : ItemRoom) (hf : l.filter k = [x]) :
    qtySum (l.map (fun ir => if k ir then g ir else ir)) p
      = qtySum l p - (if p x = true then x.item_quantity else 0)
        + (if p (g x) = true then (g x).item_quantity else 0) := by
  induction l with
  | nil => simp at hf
  | cons y rest ih =>
    rw [List.filter_cons] at hf
    by_cases hk : k y = true
    · rw [if_pos hk] at hf
      simp only [List.cons.injEq] at hf
      obtain ⟨hyx, hrest⟩ := hf
      subst hyx
      have hnone : ∀ z ∈ rest, k z = false := by
        intro z hz
        by_cases hkz : k z = true
        · exfalso
          have : z ∈ rest.filter k := List.mem_filter.mpr ⟨hz, hkz⟩
          rw [hrest] at this
          simp at this
        · simpa using hkz
      rw [List.map_cons, if_pos hk, map_update_id rest k g hnone,
        qtySum_cons, qtySum_cons]
      by_cases hp : p y = true <;> by_cases hpg : p (g y) = true <;>
        simp [hp, hpg] <;> ring
    · rw [if_neg hk] at hf
      rw [List.map_cons, if_neg hk, qtySum_cons, qtySum_cons, ih hf]
      ring

/-- Effect on the room-sum of deleting the single row carrying a key. -/
theorem qtySum_filter_out_single (l : List ItemRoom) (k p : ItemRoom → Bool) (x : ItemRoom)
    (hf : l.filter k = [x]) :
    qtySum (l.filter (fun ir => !(k ir))) p
      = qtySum l p - (if p x = true then x.item_quantity else 0) := by
  induction l with
  | nil => simp at hf
  | cons y rest ih =>
    rw [List.filter_cons] at hf
    by_cases hk : k y = true
    · rw [if_pos hk] at hf
      simp only [List.cons.injEq] at hf
      obtain ⟨hyx, hrest⟩ := hf
      subst hyx
      have hnone : ∀ z ∈ rest, (fun ir => !(k ir)) z = true := by
        intro z hz
        by_cases hkz : k z = true
        · exfalso
          have : z ∈ rest.filter k := List.mem_filter.mpr ⟨hz, hkz⟩
          rw [hrest] at this
          simp at this
        · simpa using hkz
      rw [List.filter_cons, if_neg (by simp [hk]), List.filter_eq_self.mpr hnone,
        qtySum_cons]
      ring
    · rw [if_neg hk] at hf
      rw [List.filter_cons, if_pos (by simp [hk]), qtySum_cons, qtySum_cons, ih hf]
      ring

/-- `find?` commutes with a map that does not disturb the predicate. -/
theorem find?_map_invariant {α : Type} (l : List α) (f : α → α) (p : α → Bool)
    (hp : ∀ x, p (f x) = p x) :
    (l.map f).find? p = (l.find? p).map f := by
  rw [List.find?_map]
  have : p ∘ f = p := funext hp
  rw [this]

/-- `filter` commutes with a map that does not disturb the predicate. -/
theorem filter_map_invariant {α : Type} (l : List α) (f : α → α) (p : α → Bool)
    (hp : ∀ x, p (f x) = p x) :
    (l.map f).filter p = (l.filter p).map f := by
  rw [List.filter_map]
  have : p ∘ f = p := funext hp
  rw [this]

/-- The P-side of the available / steal branch: with the target project's
Unassigned room resolved to `roomP`, a single ItemRoom row `rP` for the item
in that room, every row's quantity positive, and an existing aggregate row:
the room row's three counters are bumped, the target aggregate becomes one
more than the previous room-sum, and the zero-quantity purge deletes
nothing. -/
theorem availCore (db : DB) (pid iid : Nat) (roomP : Room) (rP : ItemRoom)
    (hroomP : db.rooms.find? (fun r => r.project_id == pid && r.room_name == "Unassigned")
      = some roomP)
    (hfP : db.itemRooms.filter (fun ir => ir.item_id == iid && ir.room_id == roomP.room_id)
      = [rP])
    (hqty : ∀ ir ∈ db.itemRooms, 1 ≤ ir.item_quantity)
    (hipP : db.itemProjects.any (fun ip => ip.item_id == iid && ip.project_id == pid) = true) :
    getOrCreateUnassigned db pid = (db, roomP.room_id)
    ∧ purgeZeroQty (recomputeItemProject (bumpItemRoom db iid roomP.room_id) iid pid)
      = { db with
          itemRooms := db.itemRooms.map (fun ir =>
            if ir.item_id == iid && ir.room_id == roomP.room_id then bumpCounters ir else ir),
          itemProjects := db.itemProjects.map (fun ip =>
            if ip.item_id == iid && ip.project_id == pid then
              { ip with reserved_quantity := sumItemQty db iid pid + 1 }
            else ip) } := by
  have hgoc : getOrCreateUnassigned db pid = (db, roomP.room_id) := by
    unfold getOrCreateUnassigned
    rw [hroomP]
  have hrPfilter : rP ∈ db.itemRooms.filter
      (fun ir => ir.item_id == iid && ir.room_id == roomP.room_id) := by
    rw [hfP]
    exact List.mem_singleton.mpr rfl
  have hrPmem : rP ∈ db.itemRooms := (List.mem_filter.mp hrPfilter).1
  have hrPkey : (rP.item_id == iid && rP.room_id == roomP.room_id) = true :=
    (List.mem_filter.mp hrPfilter).2
  have hany : db.itemRooms.any
      (fun ir => ir.item_id == iid && ir.room_id == roomP.room_id) = true :=
    List.any_eq_true.mpr ⟨rP, hrPmem, hrPkey⟩
  have hbump : bumpItemRoom db iid roomP.room_id
      = { db with itemRooms := db.itemRooms.map (fun ir =>
          if ir.item_id == iid && ir.room_id == roomP.room_id then bumpCounters ir else ir) } := by
    unfold bumpItemRoom
    rw [if_pos hany]
  have hroomPpred : (roomP.project_id == pid && roomP.room_name == "Unassigned") = true := by
    have := List.find?_some hroomP
    simpa using this
  have hinP : roomInProject db.rooms roomP.room_id pid = true := by
    refine List.any_eq_true.mpr ⟨roomP, List.mem_of_find?_eq_some hroomP, ?_⟩
    rw [Bool.and_eq_true]
    exact ⟨beq_self_eq_true roomP.room_id, (Bool.and_eq_true_iff.mp hroomPpred).1⟩
  have hpP : (fun ir => ir.item_id == iid && roomInProject db.rooms ir.room_id pid) rP = true := by
    rw [Bool.and_eq_true]
    refine ⟨(Bool.and_eq_true_iff.mp hrPkey).1, ?_⟩
    have hrid : rP.room_id = roomP.room_id := by
      have := (Bool.and_eq_true_iff.mp hrPkey).2
      exact eq_of_beq this
    rw [hrid]
    exact hinP
  have hsum : sumItemQty
      { db with itemRooms := db.itemRooms.map (fun ir =>
          if ir.item_id == iid && ir.room_id == roomP.room_id then bumpCounters ir else ir) }
      iid pid = sumItemQty db iid pid + 1 := by
    show qtySum (db.itemRooms.map (fun ir =>
        if ir.item_id == iid && ir.room_id == roomP.room_id then bumpCounters ir else ir))
        (fun ir => ir.item_id == iid && roomInProject db.rooms ir.room_id pid)
      = qtySum db.itemRooms
          (fun ir => ir.item_id == iid && roomInProject db.rooms ir.room_id pid) + 1
    rw [qtySum_map_update_single db.itemRooms
      (fun ir => ir.item_id == iid && ir.room_id == roomP.room_id)
      (fun ir => ir.item_id == iid && roomInProject db.rooms ir.room_id pid)
      bumpCounters rP hfP]
    have hpg : ((bumpCounters rP).item_id == iid
        && roomInProject db.rooms (bumpCounters rP).room_id pid)
      = (rP.item_id == iid && roomInProject db.rooms rP.room_id pid) := rfl
    rw [hpg, if_pos hpP, if_pos hpP]
    have hbq : (bumpCounters rP).item_quantity = rP.item_quantity + 1 := rfl
    rw [hbq]
    ring
  have hrec : recomputeItemProject
      { db with itemRooms := db.itemRooms.map (fun ir =>
          if ir.item_id == iid && ir.room_id == roomP.room_id then bumpCounters ir else ir) }
      iid pid
      = { db with
          itemRooms := db.itemRooms.map (fun ir =>
            if ir.item_id == iid && ir.room_id == roomP.room_id then bumpCounters ir else ir),
          itemProjects := db.itemProjects.map (fun ip =>
            if ip.item_id == iid && ip.project_id == pid then
              { ip with reserved_quantity := sumItemQty db iid pid + 1 }
            else ip) } := by
    unfold recomputeItemProject
    rw [if_pos hipP, hsum]
  rw [hbump, hrec]
  refine ⟨hgoc, ?_⟩
  unfold purgeZeroQty
  congr 1
  refine List.filter_eq_self.mpr ?_
  intro x hx
  obtain ⟨ir, hir, rfl⟩ := List.mem_map.mp hx
  rw [decide_eq_true_eq]
  by_cases hk : (ir.item_id == iid && ir.room_id == roomP.room_id) = true
  · rw [if_pos hk]
    show 1 ≤ ir.item_quantity + 1
    have := hqty ir hir
    omega
  · rw [if_neg hk]
    exact hqty ir hir

/-- When the losing project holds no ItemRoom row of the item, the whole
compensation block is skipped. -/
theorem stealCompensate_none (db2 : DB) (iid q : Nat)
    (h : db2.itemRooms.find?
      (fun ir => ir.item_id == iid && roomInProject db2.rooms ir.room_id q) = none) :
    stealCompensate db2 iid q = db2 := by
  unfold stealCompensate
  rw [h]

/-- The cross-project steal branch when the losing project `q` has no
ItemRoom row of the item: the target side is updated as in the available
case, the compensation is skipped, and the stolen-reservation event is still
recorded. -/
theorem branchSteal_noQrow (pid q : Nat) (st : LoopState) (item : Item)
    (roomP : Room) (rP : ItemRoom) (ids : List Nat)
    (hroomP : st.db.rooms.find?
      (fun r => r.project_id == pid && r.room_name == "Unassigned") = some roomP)
    (hfP : st.db.itemRooms.filter
      (fun ir => ir.item_id == item.item_id && ir.room_id == roomP.room_id) = [rP])
    (hqty : ∀ ir ∈ st.db.itemRooms, 1 ≤ ir.item_quantity)
    (hipP : st.db.itemProjects.any
      (fun ip => ip.item_id == item.item_id && ip.project_id == pid) = true)
    (hnoQ : st.db.itemRooms.filter
      (fun ir => ir.item_id == item.item_id && roomInProject st.db.rooms ir.room_id q) = []) :
    branchAvailOrSteal pid st item (some q) ids
      = { db := { st.db with
            itemRooms := st.db.itemRooms.map (fun ir =>
              if ir.item_id == item.item_id && ir.room_id == roomP.room_id then
                bumpCounters ir else ir),
            itemProjects := st.db.itemProjects.map (fun ip =>
              if ip.item_id == item.item_id && ip.project_id == pid then
                { ip with reserved_quantity := sumItemQty st.db item.item_id pid + 1 }
              else ip) },
          item_id_list := ids,
          stolen_projects := recordStolen st.stolen_projects q item.sku_num } := by
  obtain ⟨hgoc, hcore⟩ := availCore st.db pid item.item_id roomP rP hroomP hfP hqty hipP
  simp only [branchAvailOrSteal, hgoc]
  rw [hcore]
  congr 1
  apply stealCompensate_none
  show (st.db.itemRooms.map (fun ir =>
      if ir.item_id == item.item_id && ir.room_id == roomP.room_id then
        bumpCounters ir else ir)).find?
    (fun ir => ir.item_id == item.item_id && roomInProject st.db.rooms ir.room_id q) = none
  rw [find?_eq_head?_filter, filter_map_invariant]
  · rw [hnoQ]
    rfl
  · intro x
    by_cases hkx : (x.item_id == item.item_id && x.room_id == roomP.room_id) = true
    · rw [if_pos hkx]
      rfl
    · rw [if_neg hkx]

/-- Reading back the two aggregates after the target's value is set to `vP`
and then the losing project's value to `vQ` (distinct projects, both rows
present). -/
theorem ipReserved_after_two_sets (l : List ItemProject) (iid pid q : Nat) (vP vQ : Int)
    (hne : q ≠ pid)
    (hipP : l.any (fun ip => ip.item_id == iid && ip.project_id == pid) = true)
    (hipQ : l.any (fun ip => ip.item_id == iid && ip.project_id == q) = true) :
    ((((l.map (fun ip => if ip.item_id == iid && ip.project_id == pid then
          { ip with reserved_quantity := vP } else ip)).map
        (fun ip => if ip.item_id == iid && ip.project_id == q then
          { ip with reserved_quantity := vQ } else ip)).find?
        (fun ip => ip.item_id == iid && ip.project_id == pid)).map
          ItemProject.reserved_quantity = some vP)
    ∧ ((((l.map (fun ip => if ip.item_id == iid && ip.project_id == pid then
          { ip with reserved_quantity := vP } else ip)).map
        (fun ip => if ip.item_id == iid && ip.project_id == q then
          { ip with reserved_quantity := vQ } else ip)).find?
        (fun ip => ip.item_id == iid && ip.project_id == q)).map
          ItemProject.reserved_quantity = some vQ) := by
  have hfPkeep : ∀ (rid : Nat) (x : ItemProject),
      (((if x.item_id == iid && x.project_id == pid then
          { x with reserved_quantity := vP } else x)).item_id == iid
        && ((if x.item_id == iid && x.project_id == pid then
          { x with reserved_quantity := vP } else x)).project_id == rid)
      = (x.item_id == iid && x.project_id == rid) := by
    intro rid x
    by_cases hx : (x.item_id == iid && x.project_id == pid) = true
    · rw [if_pos hx]
    · rw [if_neg hx]
  have hfQkeep : ∀ (rid : Nat) (x : ItemProject),
      (((if x.item_id == iid && x.project_id == q then
          { x with reserved_quantity := vQ } else x)).item_id == iid
        && ((if x.item_id == iid && x.project_id == q then
          { x with reserved_quantity := vQ } else x)).project_id == rid)
      = (x.item_id == iid && x.project_id == rid) := by
    intro rid x
    by_cases hx : (x.item_id == iid && x.project_id == q) = true
    · rw [if_pos hx]
    · rw [if_neg hx]
  obtain ⟨eP, heP⟩ : ∃ eP, l.find? (fun ip => ip.item_id == iid && ip.project_id == pid)
      = some eP :=
    Option.isSome_iff_exists.mp (List.find?_isSome.mpr (List.any_eq_true.mp hipP))
  obtain ⟨eQ, heQ⟩ : ∃ eQ, l.find? (fun ip => ip.item_id == iid && ip.project_id == q)
      = some eQ :=
    Option.isSome_iff_exists.mp (List.find?_isSome.mpr (List.any_eq_true.mp hipQ))
  have hkeP := List.find?_some heP
  have hkeQ := List.find?_some heQ
  have heRP : eP.project_id = pid := eq_of_beq (Bool.and_eq_true_iff.mp hkeP).2
  have heRQ : eQ.project_id = q := eq_of_beq (Bool.and_eq_true_iff.mp hkeQ).2
  constructor
  · rw [find?_map_invariant _ _ _ (hfQkeep pid), find?_map_invariant _ _ _ (hfPkeep pid),
      heP]
    simp only [Option.map_some']
    rw [if_pos hkeP]
    have hnc : (({ eP with reserved_quantity := vP } : ItemProject).item_id == iid
        && ({ eP with reserved_quantity := vP } : ItemProject).project_id == q) = false := by
      show (eP.item_id == iid && eP.project_id == q) = false
      rw [heRP, beq_false_of_ne (Ne.symm hne), Bool.and_false]
    have hnc2 : ¬((({ eP with reserved_quantity := vP } : ItemProject).item_id == iid
        && ({ eP with reserved_quantity := vP } : ItemProject).project_id == q) = true) := by
      rw [hnc]
      exact Bool.false_ne_true
    rw [if_neg hnc2]
  · rw [find?_map_invariant _ _ _ (hfQkeep q), find?_map_invariant _ _ _ (hfPkeep q),
      heQ]
    simp only [Option.map_some']
    have hnc : (eQ.item_id == iid && eQ.project_id == pid) = false := by
      rw [heRQ, beq_false_of_ne hne, Bool.and_false]
    have hnc2 : ¬((eQ.item_id == iid && eQ.project_id == pid) = true) := by
      rw [hnc]
      exact Bool.false_ne_true
    rw [if_neg hnc2, if_pos hkeQ]

/-- Unfolding of the compensation block when the losing project's first
ItemRoom row is found: the row is decremented (or deleted at quantity 1) and
the losing project's aggregate recomputed from the row-sum of its rooms. -/
theorem stealCompensate_some (db2 : DB) (iid q : Nat) (rQ : ItemRoom) (roomQ : Room)
    (hfind : db2.itemRooms.find?
      (fun ir => ir.item_id == iid && roomInProject db2.rooms ir.room_id q) = some rQ)
    (hroomQ : db2.rooms.find? (fun r => r.room_id == rQ.room_id) = some roomQ) :
    stealCompensate db2 iid q
      = recomputeItemProject
          (if rQ.item_quantity - 1 < 1 then
            { db2 with itemRooms := db2.itemRooms.filter (fun ir =>
                !(ir.item_id == rQ.item_id && ir.room_id == rQ.room_id)) }
          else
            { db2 with itemRooms := db2.itemRooms.map (fun ir =>
                if ir.item_id == rQ.item_id && ir.room_id == rQ.room_id then
                  { rQ with
                      item_quantity := rQ.item_quantity - 1,
                      item_quantity_holder := rQ.item_quantity_holder - 1,
                      all_reserved := rQ.all_reserved - 1 }
                else ir) })
          iid roomQ.project_id := by
  unfold stealCompensate
  rw [hfind]
  simp only [hroomQ]

/-- Unfolding of the aggregate refresh when the aggregate row exists and the
row-sum is known. -/
theorem recompute_eq (db : DB) (iid qq : Nat) (v : Int)
    (hany : db.itemProjects.any (fun ip => ip.item_id == iid && ip.project_id == qq) = true)
    (hval : sumItemQty db iid qq = v) :
    recomputeItemProject db iid qq
      = { db with itemProjects := db.itemProjects.map (fun ip =>
          if ip.item_id == iid && ip.project_id == qq then
            { ip with reserved_quantity := v } else ip) } := by
  unfold recomputeItemProject
  rw [if_pos hany, hval]

/-- The cross-project steal branch when the losing project `q` holds exactly
one ItemRoom row `rQ` of the item: the target project's aggregate rises by
one, the losing project's aggregate falls by one, `rQ` is decremented (or
deleted when its quantity was 1), and the stolen-reservation event is
recorded; rooms, units, items, projects and users are untouched. -/
theorem branchSteal_withQrow (pid q : Nat) (st : LoopState) (item : Item)
    (roomP roomQ : Room) (rP rQ : ItemRoom) (ids : List Nat)
    (hne : q ≠ pid)
    (hroomP : st.db.rooms.find?
      (fun r => r.project_id == pid && r.room_name == "Unassigned") = some roomP)
    (hfP : st.db.itemRooms.filter
      (fun ir => ir.item_id == item.item_id && ir.room_id == roomP.room_id) = [rP])
    (hqty : ∀ ir ∈ st.db.itemRooms, 1 ≤ ir.item_quantity)
    (hipP : st.db.itemProjects.any
      (fun ip => ip.item_id == item.item_id && ip.project_id == pid) = true)
    (hfQ : st.db.itemRooms.filter
      (fun ir => ir.item_id == item.item_id && roomInProject st.db.rooms ir.room_id q) = [rQ])
    (hkQ : st.db.itemRooms.filter
      (fun ir => ir.item_id == rQ.item_id && ir.room_id == rQ.room_id) = [rQ])
    (hQnotP : (rQ.room_id == roomP.room_id) = false)
    (hPnotQ : roomInProject st.db.rooms roomP.room_id q = false)
    (hroomQ : st.db.rooms.find? (fun r => r.room_id == rQ.room_id) = some roomQ)
    (hroomQpid : roomQ.project_id = q)
    (hipQ : st.db.itemProjects.any
      (fun ip => ip.item_id == item.item_id && ip.project_id == q) = true) :
    ∃ st2, branchAvailOrSteal pid st item (some q) ids = st2
      ∧ st2.db.rooms = st.db.rooms
      ∧ st2.db.itemsU = st.db.itemsU
      ∧ st2.db.items = st.db.items
      ∧ st2.db.projects = st.db.projects
      ∧ st2.db.users = st.db.users
      ∧ st2.db.userProjects = st.db.userProjects
      ∧ ipReserved st2.db item.item_id pid = some (sumItemQty st.db item.item_id pid + 1)
      ∧ ipReserved st2.db item.item_id q = some (sumItemQty st.db item.item_id q - 1)
      ∧ (1 < rQ.item_quantity →
          irQty st2.db rQ.item_id rQ.room_id
            = some (rQ.item_quantity - 1, rQ.all_reserved - 1))
      ∧ (rQ.item_quantity = 1 →
          st2.db.itemRooms.filter
            (fun ir => ir.item_id == rQ.item_id && ir.room_id == rQ.room_id) = [])
      ∧ st2.item_id_list = ids
      ∧ st2.stolen_projects = recordStolen st.stolen_projects q item.sku_num := by
  obtain ⟨hgoc, hcore⟩ := availCore st.db pid item.item_id roomP rP hroomP hfP hqty hipP
  -- the bump map keeps both the losing-project predicate and rQ's key
  have hfBkeepQ : ∀ x : ItemRoom,
      ((if x.item_id == item.item_id && x.room_id == roomP.room_id then
          bumpCounters x else x).item_id == item.item_id
        && roomInProject st.db.rooms
          (if x.item_id == item.item_id && x.room_id == roomP.room_id then
            bumpCounters x else x).room_id q)
      = (x.item_id == item.item_id && roomInProject st.db.rooms x.room_id q) := by
    intro x
    by_cases hx : (x.item_id == item.item_id && x.room_id == roomP.room_id) = true
    · rw [if_pos hx]
      rfl
    · rw [if_neg hx]
  have hfBkeepK : ∀ x : ItemRoom,
      ((if x.item_id == item.item_id && x.room_id == roomP.room_id then
          bumpCounters x else x).item_id == rQ.item_id
        && (if x.item_id == item.item_id && x.room_id == roomP.room_id then
          bumpCounters x else x).room_id == rQ.room_id)
      = (x.item_id == rQ.item_id && x.room_id == rQ.room_id) := by
    intro x
    by_cases hx : (x.item_id == item.item_id && x.room_id == roomP.room_id) = true
    · rw [if_pos hx]
      rfl
    · rw [if_neg hx]
  have hkPrQ : (rQ.item_id == item.item_id && rQ.room_id == roomP.room_id) = false := by
    rw [hQnotP, Bool.and_false]
  have hkPrQ2 : ¬((rQ.item_id == item.item_id && rQ.room_id == roomP.room_id) = true) := by
    rw [hkPrQ]
    exact Bool.false_ne_true
  have hfQmapped : (st.db.itemRooms.map (fun ir =>
        if ir.item_id == item.item_id && ir.room_id == roomP.room_id then
          bumpCounters ir else ir)).filter
      (fun ir => ir.item_id == item.item_id && roomInProject st.db.rooms ir.room_id q)
      = [rQ] := by
    rw [filter_map_invariant _ _ _ hfBkeepQ, hfQ]
    simp only [List.map_cons, List.map_nil]
    rw [if_neg hkPrQ2]
  have hfindQmapped : (st.db.itemRooms.map (fun ir =>
        if ir.item_id == item.item_id && ir.room_id == roomP.room_id then
          bumpCounters ir else ir)).find?
      (fun ir => ir.item_id == item.item_id && roomInProject st.db.rooms ir.room_id q)
      = some rQ := by
    rw [find?_eq_head?_filter, hfQmapped]
    rfl
  have hkQmapped : (st.db.itemRooms.map (fun ir =>
        if ir.item_id == item.item_id && ir.room_id == roomP.room_id then
          bumpCounters ir else ir)).filter
      (fun ir => ir.item_id == rQ.item_id && ir.room_id == rQ.room_id)
      = [rQ] := by
    rw [filter_map_invariant _ _ _ hfBkeepK, hkQ]
    simp only [List.map_cons, List.map_nil]
    rw [if_neg hkPrQ2]
  have hrQfilter : rQ ∈ st.db.itemRooms.filter
      (fun ir => ir.item_id == item.item_id && roomInProject st.db.rooms ir.room_id q) := by
    rw [hfQ]
    exact List.mem_singleton.mpr rfl
  have hpredQrQ : (rQ.item_id == item.item_id
      && roomInProject st.db.rooms rQ.room_id q) = true :=
    (List.mem_filter.mp hrQfilter).2
  have hrQmem : rQ ∈ st.db.itemRooms := (List.mem_filter.mp hrQfilter).1
  have hrQqty : 1 ≤ rQ.item_quantity := hqty rQ hrQmem
  have hrPfilter : rP ∈ st.db.itemRooms.filter
      (fun ir => ir.item_id == item.item_id && ir.room_id == roomP.room_id) := by
    rw [hfP]
    exact List.mem_singleton.mpr rfl
  have hpredQrP : (rP.item_id == item.item_id
      && roomInProject st.db.rooms rP.room_id q) = false := by
    have hrid : rP.room_id = roomP.room_id :=
      eq_of_beq (Bool.and_eq_true_iff.mp (List.mem_filter.mp hrPfilter).2).2
    rw [hrid, hPnotQ, Bool.and_false]
  have hpredQrP2 : ¬((rP.item_id == item.item_id
      && roomInProject st.db.rooms rP.room_id q) = true) := by
    rw [hpredQrP]
    exact Bool.false_ne_true
  have hsum_mapped : qtySum (st.db.itemRooms.map (fun ir =>
        if ir.item_id == item.item_id && ir.room_id == roomP.room_id then
          bumpCounters ir else ir))
      (fun ir => ir.item_id == item.item_id && roomInProject st.db.rooms ir.room_id q)
      = sumItemQty st.db item.item_id q := by
    rw [qtySum_map_update_single st.db.itemRooms
      (fun ir => ir.item_id == item.item_id && ir.room_id == roomP.room_id)
      (fun ir => ir.item_id == item.item_id && roomInProject st.db.rooms ir.room_id q)
      bumpCounters rP hfP]
    have hpg : ((bumpCounters rP).item_id == item.item_id
        && roomInProject st.db.rooms (bumpCounters rP).room_id q)
      = (rP.item_id == item.item_id && roomInProject st.db.rooms rP.room_id q) := rfl
    rw [hpg, if_neg hpredQrP2, if_neg hpredQrP2]
    show sumItemQty st.db item.item_id q - 0 + 0 = sumItemQty st.db item.item_id q
    ring
  -- the itemProjects map of the target side keeps the losing-project key
  have hmapPkeep : ∀ x : ItemProject,
      ((if x.item_id == item.item_id && x.project_id == pid then
          { x with reserved_quantity := sumItemQty st.db item.item_id pid + 1 } else x).item_id
            == item.item_id
        && (if x.item_id == item.item_id && x.project_id == pid then
          { x with reserved_quantity := sumItemQty st.db item.item_id pid + 1 } else x).project_id
            == q)
      = (x.item_id == item.item_id && x.project_id == q) := by
    intro x
    by_cases hx : (x.item_id == item.item_id && x.project_id == pid) = true
    · rw [if_pos hx]
    · rw [if_neg hx]
  have hanyQmapped : (st.db.itemProjects.map (fun ip =>
        if ip.item_id == item.item_id && ip.project_id == pid then
          { ip with reserved_quantity := sumItemQty st.db item.item_id pid + 1 } else ip)).any
      (fun ip => ip.item_id == item.item_id && ip.project_id == q) = true := by
    rw [List.any_map]
    have : ((fun (ip : ItemProject) => ip.item_id == item.item_id && ip.project_id == q) ∘
        (fun (ip : ItemProject) =>
          if ip.item_id == item.item_id && ip.project_id == pid then
            { ip with reserved_quantity := sumItemQty st.db item.item_id pid + 1 } else ip))
        = (fun (ip : ItemProject) => ip.item_id == item.item_id && ip.project_id == q) :=
      funext hmapPkeep
    rw [this]
    exact hipQ
  simp only [branchAvailOrSteal, hgoc]
  rw [hcore]
  rw [stealCompensate_some
    ({ st.db with
        itemRooms := st.db.itemRooms.map (fun ir =>
          if ir.item_id == item.item_id && ir.room_id == roomP.room_id then
            bumpCounters ir else ir),
        itemProjects := st.db.itemProjects.map (fun ip =>
          if ip.item_id == item.item_id && ip.project_id == pid then
            { ip with reserved_quantity := sumItemQty st.db item.item_id pid + 1 }
          else ip) })
    item.item_id q rQ roomQ hfindQmapped hroomQ]
  rw [hroomQpid]
  by_cases hdel : rQ.item_quantity - 1 < 1
  · -- the row is deleted
    rw [if_pos hdel]
    have hq1 : rQ.item_quantity = 1 := by omega
    rw [recompute_eq _ item.item_id q (sumItemQty st.db item.item_id q - 1) hanyQmapped ?hval]
    case hval =>
      show qtySum ((st.db.itemRooms.map (fun ir =>
            if ir.item_id == item.item_id && ir.room_id == roomP.room_id then
              bumpCounters ir else ir)).filter (fun ir =>
            !(ir.item_id == rQ.item_id && ir.room_id == rQ.room_id)))
          (fun ir => ir.item_id == item.item_id && roomInProject st.db.rooms ir.room_id q)
        = sumItemQty st.db item.item_id q - 1
      rw [qtySum_filter_out_single _
        (fun ir => ir.item_id == rQ.item_id && ir.room_id == rQ.room_id)
        (fun ir => ir.item_id == item.item_id && roomInProject st.db.rooms ir.room_id q)
        rQ hkQmapped, hsum_mapped, if_pos hpredQrQ, hq1]
    refine ⟨_, rfl, rfl, rfl, rfl, rfl, rfl, rfl, ?_, ?_, ?_, ?_, rfl, rfl⟩
    · exact (ipReserved_after_two_sets st.db.itemProjects item.item_id pid q
        (sumItemQty st.db item.item_id pid + 1) (sumItemQty st.db item.item_id q - 1)
        hne hipP hipQ).1
    · exact (ipReserved_after_two_sets st.db.itemProjects item.item_id pid q
        (sumItemQty st.db item.item_id pid + 1) (sumItemQty st.db item.item_id q - 1)
        hne hipP hipQ).2
    · intro hgt
      omega
    · intro _
      show ((st.db.itemRooms.map (fun ir =>
            if ir.item_id == item.item_id && ir.room_id == roomP.room_id then
              bumpCounters ir else ir)).filter (fun ir =>
            !(ir.item_id == rQ.item_id && ir.room_id == rQ.room_id))).filter
          (fun ir => ir.item_id == rQ.item_id && ir.room_id == rQ.room_id) = []
      rw [List.filter_filter]
      refine List.filter_eq_nil_iff.mpr ?_
      intro a _
      by_cases ha : (a.item_id == rQ.item_id && a.room_id == rQ.room_id) = true
      · simp [ha]
      · simp [ha]
  · -- the row is decremented
    rw [if_neg hdel]
    rw [recompute_eq _ item.item_id q (sumItemQty st.db item.item_id q - 1) hanyQmapped ?hval]
    case hval =>
      show qtySum ((st.db.itemRooms.map (fun ir =>
            if ir.item_id == item.item_id && ir.room_id == roomP.room_id then
              bumpCounters ir else ir)).map (fun ir =>
            if ir.item_id == rQ.item_id && ir.room_id == rQ.room_id then
              { rQ with
                  item_quantity := rQ.item_quantity - 1,
                  item_quantity_holder := rQ.item_quantity_holder - 1,
                  all_reserved := rQ.all_reserved - 1 }
            else ir))
          (fun ir => ir.item_id == item.item_id && roomInProject st.db.rooms ir.room_id q)
        = sumItemQty st.db item.item_id q - 1
      rw [qtySum_map_update_single _
        (fun ir => ir.item_id == rQ.item_id && ir.room_id == rQ.room_id)
        (fun ir => ir.item_id == item.item_id && roomInProject st.db.rooms ir.room_id q)
        (fun _ => { rQ with
          item_quantity := rQ.item_quantity - 1,
          item_quantity_holder := rQ.item_quantity_holder - 1,
          all_reserved := rQ.all_reserved - 1 })
        rQ hkQmapped, hsum_mapped]
      have hpg2 : ((({ rQ with
            item_quantity := rQ.item_quantity - 1,
            item_quantity_holder := rQ.item_quantity_holder - 1,
            all_reserved := rQ.all_reserved - 1 } : ItemRoom)).item_id == item.item_id
          && roomInProject st.db.rooms
            (({ rQ with
              item_quantity := rQ.item_quantity - 1,
              item_quantity_holder := rQ.item_quantity_holder - 1,
              all_reserved := rQ.all_reserved - 1 } : ItemRoom)).room_id q)
        = (rQ.item_id == item.item_id && roomInProject st.db.rooms rQ.room_id q) := rfl
      rw [hpg2, if_pos hpredQrQ, if_pos hpredQrQ]
      show sumItemQty st.db item.item_id q - rQ.item_quantity + (rQ.item_quantity - 1)
        = sumItemQty st.db item.item_id q - 1
      ring
    refine ⟨_, rfl, rfl, rfl, rfl, rfl, rfl, rfl, ?_, ?_, ?_, ?_, rfl, rfl⟩
    · exact (ipReserved_after_two_sets st.db.itemProjects item.item_id pid q
        (sumItemQty st.db item.item_id pid + 1) (sumItemQty st.db item.item_id q - 1)
        hne hipP hipQ).1
    · exact (ipReserved_after_two_sets st.db.itemProjects item.item_id pid q
        (sumItemQty st.db item.item_id pid + 1) (sumItemQty st.db item.item_id q - 1)
        hne hipP hipQ).2
    · intro _
      have hgKeep : ∀ x : ItemRoom,
          ((if x.item_id == rQ.item_id && x.room_id == rQ.room_id then
              ({ rQ with
                item_quantity := rQ.item_quantity - 1,
                item_quantity_holder := rQ.item_quantity_holder - 1,
                all_reserved := rQ.all_reserved - 1 } : ItemRoom)
            else x).item_id == rQ.item_id
            && (if x.item_id == rQ.item_id && x.room_id == rQ.room_id then
              ({ rQ with
                item_quantity := rQ.item_quantity - 1,
                item_quantity_holder := rQ.item_quantity_holder - 1,
                all_reserved := rQ.all_reserved - 1 } : ItemRoom)
            else x).room_id == rQ.room_id)
          = (x.item_id == rQ.item_id && x.room_id == rQ.room_id) := by
        intro x
        by_cases hx : (x.item_id == rQ.item_id && x.room_id == rQ.room_id) = true
        · rw [if_pos hx, hx]
          show (rQ.item_id == rQ.item_id && rQ.room_id == rQ.room_id) = true
          rw [beq_self_eq_true, beq_self_eq_true, Bool.and_self]
        · rw [if_neg hx]
      have hkrQ : (rQ.item_id == rQ.item_id && rQ.room_id == rQ.room_id) = true := by
        rw [beq_self_eq_true, beq_self_eq_true, Bool.and_self]
      show (((st.db.itemRooms.map (fun ir =>
            if ir.item_id == item.item_id && ir.room_id == roomP.room_id then
              bumpCounters ir else ir)).map (fun ir =>
            if ir.item_id == rQ.item_id && ir.room_id == rQ.room_id then
              { rQ with
                  item_quantity := rQ.item_quantity - 1,
                  item_quantity_holder := rQ.item_quantity_holder - 1,
                  all_reserved := rQ.all_reserved - 1 }
            else ir)).find?
          (fun ir => ir.item_id == rQ.item_id && ir.room_id == rQ.room_id)).map
        (fun ir => (ir.item_quantity, ir.all_reserved))
        = some (rQ.item_quantity - 1, rQ.all_reserved - 1)
      rw [find?_eq_head?_filter, filter_map_invariant _ _ _ hgKeep, hkQmapped]
      simp only [List.map_cons, List.map_nil, if_pos hkrQ]
      rfl
    · intro hq1
      omega

/-! ## Stolen-reservation event bookkeeping -/

/-- `find?` over stolen items at a matching head. -/
theorem find?_sku_cons_pos (d : StolenItem) (rest : List StolenItem) (sku : String)
    (h : (d.sku_num == sku) = true) :
    List.find? (fun x => x.sku_num == sku) (d :: rest) = some d := by
  simp [List.find?, h]

/-- `find?` over stolen items at a non-matching head. -/
theorem find?_sku_cons_neg (d : StolenItem) (rest : List StolenItem) (sku : String)
    (h : (d.sku_num == sku) = false) :
    List.find? (fun x => x.sku_num == sku) (d :: rest)
      = List.find? (fun x => x.sku_num == sku) rest := by
  simp [List.find?, h]

/-- `find?` over stolen projects at a matching head. -/
theorem find?_proj_cons_pos (p : StolenProject) (rest : List StolenProject) (q : Nat)
    (h : (p.project_id == q) = true) :
    List.find? (fun x => x.project_id == q) (p :: rest) = some p := by
  simp [List.find?, h]

/-- `find?` over stolen projects at a non-matching head. -/
theorem find?_proj_cons_neg (p : StolenProject) (rest : List StolenProject) (q : Nat)
    (h : (p.project_id == q) = false) :
    List.find? (fun x => x.project_id == q) (p :: rest)
      = List.find? (fun x => x.project_id == q) rest := by
  simp [List.find?, h]

/-- Unfolding of the per-sku accumulator at a non-matching head. -/
theorem addStolenItem_cons_ne (d : StolenItem) (rest : List StolenItem) (sku : String)
    (h : (d.sku_num == sku) = false) :
    addStolenItem (d :: rest) sku = d :: addStolenItem rest sku := by
  have hb : bumpStolenItem (d :: rest) sku
      = (bumpStolenItem rest sku).map (fun x => d :: x) := by
    simp only [bumpStolenItem]
    rw [if_neg (by rw [h]; exact Bool.false_ne_true)]
  unfold addStolenItem
  rw [hb]
  cases bumpStolenItem rest sku with
  | none => simp
  | some l2 => simp

/-- Unfolding of the per-sku accumulator at a matching head. -/
theorem addStolenItem_cons_eq (d : StolenItem) (rest : List StolenItem) (sku : String)
    (h : (d.sku_num == sku) = true) :
    addStolenItem (d :: rest) sku = { d with quantity := d.quantity + 1 } :: rest := by
  have hb : bumpStolenItem (d :: rest) sku
      = some ({ d with quantity := d.quantity + 1 } :: rest) := by
    simp only [bumpStolenItem]
    rw [if_pos h]
  unfold addStolenItem
  rw [hb]

/-- A first steal of a sku appends a fresh quantity-1 entry: afterwards there
is exactly one entry for the sku and it carries quantity 1. -/
theorem addStolenItem_fresh (sku : String) :
    ∀ l : List StolenItem, l.countP (fun d => d.sku_num == sku) = 0 →
      (addStolenItem l sku).countP (fun d => d.sku_num == sku) = 1
      ∧ ((addStolenItem l sku).find? (fun d => d.sku_num == sku)).map StolenItem.quantity
          = some 1 := by
  intro l
  induction l with
  | nil =>
    intro _
    refine ⟨?_, ?_⟩
    · simp [addStolenItem, bumpStolenItem]
    · simp [addStolenItem, bumpStolenItem, List.find?]
  | cons d rest ih =>
    intro h
    rw [List.countP_cons] at h
    have hd : (d.sku_num == sku) = false := by
      by_cases hx : (d.sku_num == sku) = true
      · rw [if_pos hx] at h
        exact absurd h (by omega)
      · simpa using hx
    have hdn : ¬((d.sku_num == sku) = true) := by
      rw [hd]; exact Bool.false_ne_true
    have hrest : rest.countP (fun d => d.sku_num == sku) = 0 := by
      rw [if_neg hdn] at h
      omega
    obtain ⟨ih1, ih2⟩ := ih hrest
    rw [addStolenItem_cons_ne d rest sku hd]
    refine ⟨?_, ?_⟩
    · rw [List.countP_cons, if_neg hdn, ih1]
    · rw [find?_sku_cons_neg _ _ _ hd]
      exact ih2

/-- A repeated steal of a sku bumps the first matching entry's quantity and
adds no entry. -/
theorem addStolenItem_accum (sku : String) :
    ∀ (l : List StolenItem) (n : Nat),
      (l.find? (fun d => d.sku_num == sku)).map StolenItem.quantity = some n →
      ((addStolenItem l sku).find? (fun d => d.sku_num == sku)).map StolenItem.quantity
          = some (n + 1)
      ∧ (addStolenItem l sku).countP (fun d => d.sku_num == sku)
          = l.countP (fun d => d.sku_num == sku) := by
  intro l
  induction l with
  | nil => intro n h; simp [List.find?] at h
  | cons d rest ih =>
    intro n h
    by_cases hd : (d.sku_num == sku) = true
    · rw [find?_sku_cons_pos _ _ _ hd] at h
      simp only [Option.map_some', Option.some.injEq] at h
      rw [addStolenItem_cons_eq d rest sku hd]
      have hd2 : (({ d with quantity := d.quantity + 1 } : StolenItem).sku_num == sku)
          = true := hd
      refine ⟨?_, ?_⟩
      · rw [find?_sku_cons_pos _ _ _ hd2]
        simp only [Option.map_some', Option.some.injEq]
        show d.quantity + 1 = n + 1
        omega
      · rw [List.countP_cons, List.countP_cons, if_pos hd2]
    · have hd2 : (d.sku_num == sku) = false := by simpa using hd
      rw [find?_sku_cons_neg _ _ _ hd2] at h
      obtain ⟨ih1, ih2⟩ := ih n h
      rw [addStolenItem_cons_ne d rest sku hd2]
      refine ⟨?_, ?_⟩
      · rw [find?_sku_cons_neg _ _ _ hd2]
        exact ih1
      · rw [List.countP_cons, List.countP_cons, if_neg hd, ih2]

/-- Unfolding of the event recorder at a non-matching head project. -/
theorem recordStolen_cons_ne (p : StolenProject) (rest : List StolenProject)
    (q : Nat) (sku : String) (h : (p.project_id == q) = false) :
    recordStolen (p :: rest) q sku = p :: recordStolen rest q sku := by
  have hb : bumpStolenProject (p :: rest) q sku
      = (bumpStolenProject rest q sku).map (fun x => p :: x) := by
    simp only [bumpStolenProject]
    rw [if_neg (by rw [h]; exact Bool.false_ne_true)]
  unfold recordStolen
  rw [hb]
  cases bumpStolenProject rest q sku with
  | none => simp
  | some l2 => simp

/-- Unfolding of the event recorder at a matching head project. -/
theorem recordStolen_cons_eq (p : StolenProject) (rest : List StolenProject)
    (q : Nat) (sku : String) (h : (p.project_id == q) = true) :
    recordStolen (p :: rest) q sku
      = { p with items := addStolenItem p.items sku } :: rest := by
  have hb : bumpStolenProject (p :: rest) q sku
      = some ({ p with items := addStolenItem p.items sku } :: rest) := by
    simp only [bumpStolenProject]
    rw [if_pos h]
  unfold recordStolen
  rw [hb]

/-- Head unfolding of the event count. -/
theorem stolenEventCount_cons (p : StolenProject) (rest : List StolenProject)
    (q : Nat) (sku : String) :
    stolenEventCount (p :: rest) q sku
      = (if (p.project_id == q) = true then
          p.items.countP (fun d => d.sku_num == sku) else 0)
        + stolenEventCount rest q sku := by
  unfold stolenEventCount
  rw [List.filter_cons]
  by_cases h : (p.project_id == q) = true
  · rw [if_pos h, if_pos h]
    simp [Nat.add_comm]
  · rw [if_neg h, if_neg h]
    simp

/-- A first steal of `(q, sku)` records exactly one event entry, carrying
quantity 1. -/
theorem recordStolen_fresh (q : Nat) (sku : String) :
    ∀ l : List StolenProject, stolenEventCount l q sku = 0 →
      stolenEventCount (recordStolen l q sku) q sku = 1
      ∧ stolenQty (recordStolen l q sku) q sku = some 1 := by
  intro l
  induction l with
  | nil =>
    intro _
    refine ⟨?_, ?_⟩
    · simp [recordStolen, bumpStolenProject, stolenEventCount]
    · simp [recordStolen, bumpStolenProject, stolenQty, List.find?]
  | cons p rest ih =>
    intro h
    rw [stolenEventCount_cons] at h
    by_cases hp : (p.project_id == q) = true
    · rw [if_pos hp] at h
      have hpi : p.items.countP (fun d => d.sku_num == sku) = 0 := by omega
      have hrest : stolenEventCount rest q sku = 0 := by omega
      obtain ⟨ha1, ha2⟩ := addStolenItem_fresh sku p.items hpi
      rw [recordStolen_cons_eq p rest q sku hp]
      have hp2 : (({ p with items := addStolenItem p.items sku } :
          StolenProject).project_id == q) = true := hp
      have hproj : ({ p with items := addStolenItem p.items sku } :
          StolenProject).items = addStolenItem p.items sku := rfl
      refine ⟨?_, ?_⟩
      · rw [stolenEventCount_cons, if_pos hp2, hproj, ha1, hrest]
      · unfold stolenQty
        rw [find?_proj_cons_pos _ _ _ hp2]
        exact ha2
    · rw [if_neg hp] at h
      have hp2 : (p.project_id == q) = false := by simpa using hp
      obtain ⟨ih1, ih2⟩ := ih (by omega)
      rw [recordStolen_cons_ne p rest q sku hp2]
      refine ⟨?_, ?_⟩
      · rw [stolenEventCount_cons, if_neg hp, ih1]
      · unfold stolenQty
        rw [find?_proj_cons_neg _ _ _ hp2]
        exact ih2

/-- A repeated steal of `(q, sku)` accumulates the quantity of the existing
event entry instead of duplicating it. -/
theorem recordStolen_accum (q : Nat) (sku : String) :
    ∀ (l : List StolenProject) (n : Nat), stolenQty l q sku = some n →
      stolenQty (recordStolen l q sku) q sku = some (n + 1)
      ∧ stolenEventCount (recordStolen l q sku) q sku = stolenEventCount l q sku := by
  intro l
  induction l with
  | nil =>
    intro n h
    unfold stolenQty at h
    simp [List.find?] at h
  | cons p rest ih =>
    intro n h
    by_cases hp : (p.project_id == q) = true
    · have hq : (p.items.find? (fun d => d.sku_num == sku)).map StolenItem.quantity
          = some n := by
        unfold stolenQty at h
        rw [find?_proj_cons_pos _ _ _ hp] at h
        exact h
      obtain ⟨ha1, ha2⟩ := addStolenItem_accum sku p.items n hq
      rw [recordStolen_cons_eq p rest q sku hp]
      have hp2 : (({ p with items := addStolenItem p.items sku } :
          StolenProject).project_id == q) = true := hp
      have hproj : ({ p with items := addStolenItem p.items sku } :
          StolenProject).items = addStolenItem p.items sku := rfl
      refine ⟨?_, ?_⟩
      · unfold stolenQty
        rw [find?_proj_cons_pos _ _ _ hp2]
        exact ha1
      · rw [stolenEventCount_cons, stolenEventCount_cons, if_pos hp2, if_pos hp,
          hproj, ha2]
    · have hp2 : (p.project_id == q) = false := by simpa using hp
      have hq : stolenQty rest q sku = some n := by
        unfold stolenQty at h ⊢
        rw [find?_proj_cons_neg _ _ _ hp2] at h
        exact h
      obtain ⟨ih1, ih2⟩ := ih n hq
      rw [recordStolen_cons_ne p rest q sku hp2]
      refine ⟨?_, ?_⟩
      · unfold stolenQty
        rw [find?_proj_cons_neg _ _ _ hp2]
        exact ih1
      · rw [stolenEventCount_cons, if_neg hp, stolenEventCount_cons, if_neg hp, ih2]

/-- **C2.**  For every unit `U` of item `X` in stage `reserved` with owning
project `Q` different from the target project `P`, the per-unit step of
`confirm_checkout` decreases Q's `ItemProject.reserved_quantity` for X by 1
via a −1 adjustment (or deletion at zero) of the ItemRoom row holding U in Q,
increases P's `ItemProject.reserved_quantity` for X by 1, records exactly one
stolen-reservation event for `(Q, X)` with quantity 1 — a repeated steal of
the same `(Q, X)` in one batch accumulating the quantity instead of
duplicating the event — and leaves U with stage `checked_out` and
`project_id = P`. -/
theorem C2_cross_project_steal (pid q uid : Nat) (st : LoopState)
    (u : ItemsU) (item : Item) (roomP roomQ : Room) (rP rQ : ItemRoom)
    (hu : st.db.itemsU.find? (fun x => x.item_u_id == uid) = some u)
    (hstage : u.stage = "r")
    (hproj : u.project_id = some q)
    (hne : q ≠ pid)
    (hit : st.db.items.find? (fun it => it.item_id == u.item_id) = some item)
    (hroomP : st.db.rooms.find?
      (fun r => r.project_id == pid && r.room_name == "Unassigned") = some roomP)
    (hfP : st.db.itemRooms.filter
      (fun ir => ir.item_id == item.item_id && ir.room_id == roomP.room_id) = [rP])
    (hqty : ∀ ir ∈ st.db.itemRooms, 1 ≤ ir.item_quantity)
    (hipP : st.db.itemProjects.any
      (fun ip => ip.item_id == item.item_id && ip.project_id == pid) = true)
    (hfQ : st.db.itemRooms.filter
      (fun ir => ir.item_id == item.item_id && roomInProject st.db.rooms ir.room_id q) = [rQ])
    (hkQ : st.db.itemRooms.filter
      (fun ir => ir.item_id == rQ.item_id && ir.room_id == rQ.room_id) = [rQ])
    (hQnotP : (rQ.room_id == roomP.room_id) = false)
    (hPnotQ : roomInProject st.db.rooms roomP.room_id q = false)
    (hroomQ : st.db.rooms.find? (fun r => r.room_id == rQ.room_id) = some roomQ)
    (hroomQpid : roomQ.project_id = q)
    (hipQ : st.db.itemProjects.any
      (fun ip => ip.item_id == item.item_id && ip.project_id == q) = true)
    (hsyncP : ipReserved st.db item.item_id pid
      = some (sumItemQty st.db item.item_id pid))
    (hsyncQ : ipReserved st.db item.item_id q
      = some (sumItemQty st.db item.item_id q)) :
    ∃ st2, processUnit pid st uid = StepResult.ok st2
      ∧ (∀ rp, ipReserved st.db item.item_id pid = some rp →
          ipReserved st2.db item.item_id pid = some (rp + 1))
      ∧ (∀ rq, ipReserved st.db item.item_id q = some rq →
          ipReserved st2.db item.item_id q = some (rq - 1))
      ∧ (1 < rQ.item_quantity →
          irQty st2.db rQ.item_id rQ.room_id
            = some (rQ.item_quantity - 1, rQ.all_reserved - 1))
      ∧ (rQ.item_quantity = 1 →
          st2.db.itemRooms.filter
            (fun ir => ir.item_id == rQ.item_id && ir.room_id == rQ.room_id) = [])
      ∧ unitState st2.db uid = some ("c", some pid)
      ∧ st2.stolen_projects = recordStolen st.stolen_projects q item.sku_num
      ∧ (stolenEventCount st.stolen_projects q item.sku_num = 0 →
          stolenEventCount st2.stolen_projects q item.sku_num = 1
          ∧ stolenQty st2.stolen_projects q item.sku_num = some 1)
      ∧ (∀ n, stolenQty st.stolen_projects q item.sku_num = some n →
          stolenQty st2.stolen_projects q item.sku_num = some (n + 1)
          ∧ stolenEventCount st2.stolen_projects q item.sku_num
              = stolenEventCount st.stolen_projects q item.sku_num) := by
  obtain ⟨st2b, heq, hrooms, hitemsU, hitems, hprojs, husers, hups, hipP2, hipQ2,
      hirGT, hirEQ, hids, hstolen⟩ :=
    branchSteal_withQrow pid q st item roomP roomQ rP rQ
      (st.item_id_list ++ [u.item_id]) hne hroomP hfP hqty hipP hfQ hkQ
      hQnotP hPnotQ hroomQ hroomQpid hipQ
  have hqne : (q != pid) = true := by simpa using hne
  refine ⟨commitUnit pid st2b uid, ?_, ?_, ?_, ?_, ?_, ?_, ?_, ?_, ?_⟩
  · unfold processUnit
    rw [hu]
    simp [hit, hstage, hproj, hqne]
    rw [heq]
  · intro rp hrp
    rw [hsyncP] at hrp
    have hrp2 : sumItemQty st.db item.item_id pid = rp := Option.some.inj hrp
    have hmain : ipReserved (commitUnit pid st2b uid).db item.item_id pid
        = ipReserved st2b.db item.item_id pid := rfl
    rw [hmain, hipP2, hrp2]
  · intro rq hrq
    rw [hsyncQ] at hrq
    have hrq2 : sumItemQty st.db item.item_id q = rq := Option.some.inj hrq
    have hmain : ipReserved (commitUnit pid st2b uid).db item.item_id q
        = ipReserved st2b.db item.item_id q := rfl
    rw [hmain, hipQ2, hrq2]
  · intro hgt
    have hmain : irQty (commitUnit pid st2b uid).db rQ.item_id rQ.room_id
        = irQty st2b.db rQ.item_id rQ.room_id := rfl
    rw [hmain]
    exact hirGT hgt
  · intro hone
    have hmain : (commitUnit pid st2b uid).db.itemRooms = st2b.db.itemRooms := rfl
    rw [hmain]
    exact hirEQ hone
  · have hcommitKeep : ∀ x : ItemsU,
        ((if x.item_u_id == uid then
            { x with stage := "c", project_id := some pid } else x).item_u_id == uid)
          = (x.item_u_id == uid) := by
      intro x
      by_cases hx : (x.item_u_id == uid) = true
      · rw [if_pos hx]
      · rw [if_neg hx]
    have hupos : (u.item_u_id == uid) = true := by
      have h2 := List.find?_some hu
      exact h2
    have hstep : (commitUnit pid st2b uid).db.itemsU
        = st2b.db.itemsU.map (fun x =>
            if x.item_u_id == uid then
              { x with stage := "c", project_id := some pid } else x) := rfl
    unfold unitState
    rw [hstep, hitemsU, find?_map_invariant _ _ _ hcommitKeep, hu]
    simp only [Option.map_some']
    rw [if_pos hupos]
  · exact hstolen
  · intro h0
    have hrec : (commitUnit pid st2b uid).stolen_projects
        = recordStolen st.stolen_projects q item.sku_num := hstolen
    rw [hrec]
    exact recordStolen_fresh q item.sku_num st.stolen_projects h0
  · intro n hn
    have hrec : (commitUnit pid st2b uid).stolen_projects
        = recordStolen st.stolen_projects q item.sku_num := hstolen
    rw [hrec]
    exact recordStolen_accum q item.sku_num st.stolen_projects n hn

/-- **C2, witness.**  The theorem applied to `c4db`: unit 10 of item 100
(sku "S100") is reserved by project 2 and claimed by project 1. -/
theorem C2_cross_project_steal_witness :
    ∃ st2, processUnit 1 { db := c4db, item_id_list := [], stolen_projects := [] } 10
        = StepResult.ok st2
      ∧ (∀ rp, ipReserved c4db 100 1 = some rp →
          ipReserved st2.db 100 1 = some (rp + 1))
      ∧ (∀ rq, ipReserved c4db 100 2 = some rq →
          ipReserved st2.db 100 2 = some (rq - 1))
      ∧ ((1 : Int) < 2 →
          irQty st2.db 100 6 = some ((2 : Int) - 1, (2 : Int) - 1))
      ∧ ((2 : Int) = 1 →
          st2.db.itemRooms.filter
            (fun ir => ir.item_id == 100 && ir.room_id == 6) = [])
      ∧ unitState st2.db 10 = some ("c", some 1)
      ∧ st2.stolen_projects = recordStolen [] 2 "S100"
      ∧ (stolenEventCount [] 2 "S100" = 0 →
          stolenEventCount st2.stolen_projects 2 "S100" = 1
          ∧ stolenQty st2.stolen_projects 2 "S100" = some 1)
      ∧ (∀ n, stolenQty [] 2 "S100" = some n →
          stolenQty st2.stolen_projects 2 "S100" = some (n + 1)
          ∧ stolenEventCount st2.stolen_projects 2 "S100"
              = stolenEventCount [] 2 "S100") :=
  C2_cross_project_steal 1 2 10
    { db := c4db, item_id_list := [], stolen_projects := [] }
    { item_u_id := 10, item_id := 100, stage := "r", project_id := some 2 }
    (mkItem 100 "S100" "X100" 0 3 3 3)
    { room_id := 5, project_id := 1, room_name := "Unassigned" }
    { room_id := 6, project_id := 2, room_name := "Main" }
    { item_id := 100, room_id := 5, item_quantity := 1,
      item_quantity_holder := 1, all_reserved := 1 }
    { item_id := 100, room_id := 6, item_quantity := 2,
      item_quantity_holder := 2, all_reserved := 2 }
    (by decide) (by decide) (by decide) (by decide) (by decide) (by decide)
    (by decide) (by decide) (by decide) (by decide) (by decide) (by decide)
    (by decide) (by decide) (by decide) (by decide) (by decide) (by decide)

/-- The shared placement of the `moving` case: with project `pid`'s
Unassigned room already present and a unique ItemRoom row for the item in
it, `get_or_create` returns the existing room and the bump increments that
row's counters, touching nothing else — in particular no ItemProject
recomputation takes place. -/
theorem movingPark (db : DB) (pid iid : Nat) (roomP : Room) (rP : ItemRoom)
    (hroomP : db.rooms.find?
      (fun r => r.project_id == pid && r.room_name == "Unassigned") = some roomP)
    (hfP : db.itemRooms.filter
      (fun ir => ir.item_id == iid && ir.room_id == roomP.room_id) = [rP]) :
    getOrCreateUnassigned db pid = (db, roomP.room_id)
    ∧ (bumpItemRoom db iid roomP.room_id).itemRooms
        = db.itemRooms.map (fun ir =>
            if ir.item_id == iid && ir.room_id == roomP.room_id then
              bumpCounters ir else ir)
    ∧ irQty (bumpItemRoom db iid roomP.room_id) iid roomP.room_id
        = some (rP.item_quantity + 1, rP.all_reserved + 1)
    ∧ (bumpItemRoom db iid roomP.room_id).itemProjects = db.itemProjects
    ∧ (bumpItemRoom db iid roomP.room_id).rooms = db.rooms
    ∧ (bumpItemRoom db iid roomP.room_id).items = db.items
    ∧ (bumpItemRoom db iid roomP.room_id).itemsU = db.itemsU := by
  have hgoc : getOrCreateUnassigned db pid = (db, roomP.room_id) := by
    unfold getOrCreateUnassigned
    rw [hroomP]
  have hmemf : rP ∈ db.itemRooms.filter
      (fun ir => ir.item_id == iid && ir.room_id == roomP.room_id) := by
    rw [hfP]
    exact List.mem_singleton.mpr rfl
  have hmem : rP ∈ db.itemRooms := (List.mem_filter.mp hmemf).1
  have hkey : (rP.item_id == iid && rP.room_id == roomP.room_id) = true :=
    (List.mem_filter.mp hmemf).2
  have hany : db.itemRooms.any
      (fun ir => ir.item_id == iid && ir.room_id == roomP.room_id) = true :=
    List.any_eq_true.mpr ⟨rP, hmem, hkey⟩
  have hbump : bumpItemRoom db iid roomP.room_id
      = { db with itemRooms := db.itemRooms.map (fun ir =>
          if ir.item_id == iid && ir.room_id == roomP.room_id then
            bumpCounters ir else ir) } := by
    unfold bumpItemRoom
    rw [if_pos hany]
  have hkeep : ∀ x : ItemRoom,
      ((if x.item_id == iid && x.room_id == roomP.room_id then
          bumpCounters x else x).item_id == iid
        && (if x.item_id == iid && x.room_id == roomP.room_id then
          bumpCounters x else x).room_id == roomP.room_id)
        = (x.item_id == iid && x.room_id == roomP.room_id) := by
    intro x
    by_cases hx : (x.item_id == iid && x.room_id == roomP.room_id) = true
    · rw [if_pos hx]
      rfl
    · rw [if_neg hx]
  refine ⟨hgoc, ?_, ?_, ?_, ?_, ?_, ?_⟩
  · rw [hbump]
  · rw [hbump]
    unfold irQty
    have hproj : ({ db with itemRooms := db.itemRooms.map (fun ir =>
        if ir.item_id == iid && ir.room_id == roomP.room_id then
          bumpCounters ir else ir) } : DB).itemRooms
        = db.itemRooms.map (fun ir =>
            if ir.item_id == iid && ir.room_id == roomP.room_id then
              bumpCounters ir else ir) := rfl
    rw [hproj, find?_map_invariant _ _ _ hkeep, find?_eq_head?_filter, hfP]
    simp only [List.head?_cons, Option.map_some']
    rw [if_pos hkey]
    rfl
  · rw [hbump]
  · rw [hbump]
  · rw [hbump]
  · rw [hbump]

/-- **C6, counterexample.**  The claim says the departing `moving` unit is
placed "exactly as in the available case, including the
ItemProject.reserved_quantity recomputation for the target project".  On
`c6db` the placement bumps project 1's Unassigned ItemRoom row to quantity 2,
but the ItemProject aggregate stays at its stale value 1 while the room sum
is 2: the moving branch performs no recomputation. -/
theorem C6_counterexample :
    (stepOf (processUnit 1
        { db := c6db, item_id_list := [], stolen_projects := [] } 10)).map
      (fun st2 => (irQty st2.db 100 5, ipReserved st2.db 100 1,
        sumItemQty st2.db 100 1))
      = some (some (2, 2), some 1, 2) := by decide

/-- **C6.**  For every unit in stage `moving`, the per-unit step of
`confirm_checkout` first attempts to find one other unit of the same Item in
stage `available` and, if found, promotes it to stage `moving` with a null
`project_id` (if none exists the promotion is skipped without error), then
places the departing unit into the target project's Unassigned room by
bumping the ItemRoom row's counters — but, unlike the available case, it
performs no `ItemProject.reserved_quantity` recomputation (and no
zero-quantity purge): the ItemProject table is returned unchanged.  The
departing unit ends in stage `checked_out` on the target project. -/
theorem C6_moving_parks_without_recompute (pid uid : Nat) (st : LoopState)
    (u : ItemsU) (item : Item) (roomP : Room) (rP : ItemRoom)
    (hu : st.db.itemsU.find? (fun x => x.item_u_id == uid) = some u)
    (hstage : u.stage = "m")
    (hit : st.db.items.find? (fun x => x.item_id == u.item_id) = some item)
    (hroomP : st.db.rooms.find?
      (fun r => r.project_id == pid && r.room_name == "Unassigned") = some roomP)
    (hfP : st.db.itemRooms.filter
      (fun ir => ir.item_id == item.item_id && ir.room_id == roomP.room_id) = [rP])
    (hnukey : match st.db.itemsU.find?
        (fun x => x.item_id == item.item_id && x.stage == "a") with
      | none => True
      | some nu => st.db.itemsU.find? (fun x => x.item_u_id == nu.item_u_id) = some nu
          ∧ (nu.item_u_id == uid) = false) :
    ∃ st2, processUnit pid st uid = StepResult.ok st2
      ∧ (∀ nu, st.db.itemsU.find?
            (fun x => x.item_id == item.item_id && x.stage == "a") = some nu →
          unitState st2.db nu.item_u_id = some ("m", none))
      ∧ (st.db.itemsU.find?
            (fun x => x.item_id == item.item_id && x.stage == "a") = none →
          st2.db.itemsU = st.db.itemsU.map (fun x =>
            if x.item_u_id == uid then
              { x with stage := "c", project_id := some pid } else x))
      ∧ unitState st2.db uid = some ("c", some pid)
      ∧ irQty st2.db item.item_id roomP.room_id
          = some (rP.item_quantity + 1, rP.all_reserved + 1)
      ∧ st2.db.itemProjects = st.db.itemProjects
      ∧ st2.db.rooms = st.db.rooms
      ∧ st2.db.items = st.db.items
      ∧ st2.stolen_projects = st.stolen_projects := by
  have hupos : (u.item_u_id == uid) = true := by
    have h2 := List.find?_some hu
    exact h2
  have hcommitKeep : ∀ x : ItemsU,
      ((if x.item_u_id == uid then
          { x with stage := "c", project_id := some pid } else x).item_u_id == uid)
        = (x.item_u_id == uid) := by
    intro x
    by_cases hx : (x.item_u_id == uid) = true
    · rw [if_pos hx]
    · rw [if_neg hx]
  cases hav : st.db.itemsU.find? (fun x => x.item_id == item.item_id && x.stage == "a") with
  | none =>
    obtain ⟨hgoc, hirr, hirq, hip, hroomsB, hitemsB, hiu⟩ :=
      movingPark st.db pid item.item_id roomP rP hroomP hfP
    have hbm : branchMoving pid st item (st.item_id_list ++ [u.item_id])
        = { db := bumpItemRoom st.db item.item_id roomP.room_id,
            item_id_list := st.item_id_list ++ [u.item_id],
            stolen_projects := st.stolen_projects } := by
      unfold branchMoving
      rw [hav]
      simp only [hgoc]
    refine ⟨commitUnit pid
        { db := bumpItemRoom st.db item.item_id roomP.room_id,
          item_id_list := st.item_id_list ++ [u.item_id],
          stolen_projects := st.stolen_projects } uid,
      ?_, ?_, ?_, ?_, ?_, ?_, ?_, ?_, ?_⟩
    · have hdisp : processUnit pid st uid
          = StepResult.ok (commitUnit pid
              (branchMoving pid st item (st.item_id_list ++ [u.item_id])) uid) := by
        unfold processUnit
        rw [hu]
        simp [hit, hstage]
      rw [hdisp, hbm]
    · intro nu hnu
      exact Option.noConfusion hnu
    · intro _
      have hstep : (commitUnit pid
          { db := bumpItemRoom st.db item.item_id roomP.room_id,
            item_id_list := st.item_id_list ++ [u.item_id],
            stolen_projects := st.stolen_projects } uid).db.itemsU
          = (bumpItemRoom st.db item.item_id roomP.room_id).itemsU.map (fun x =>
              if x.item_u_id == uid then
                { x with stage := "c", project_id := some pid } else x) := rfl
      rw [hstep, hiu]
    · have hstep : (commitUnit pid
          { db := bumpItemRoom st.db item.item_id roomP.room_id,
            item_id_list := st.item_id_list ++ [u.item_id],
            stolen_projects := st.stolen_projects } uid).db.itemsU
          = (bumpItemRoom st.db item.item_id roomP.room_id).itemsU.map (fun x =>
              if x.item_u_id == uid then
                { x with stage := "c", project_id := some pid } else x) := rfl
      unfold unitState
      rw [hstep, hiu, find?_map_invariant _ _ _ hcommitKeep, hu]
      simp only [Option.map_some']
      rw [if_pos hupos]
    · have hmain : irQty (commitUnit pid
          { db := bumpItemRoom st.db item.item_id roomP.room_id,
            item_id_list := st.item_id_list ++ [u.item_id],
            stolen_projects := st.stolen_projects } uid).db item.item_id roomP.room_id
          = irQty (bumpItemRoom st.db item.item_id roomP.room_id)
              item.item_id roomP.room_id := rfl
      rw [hmain]
      exact hirq
    · exact hip
    · exact hroomsB
    · exact hitemsB
    · rfl
  | some nu =>
    rw [hav] at hnukey
    obtain ⟨hnukey1, hnuid⟩ := hnukey
    have huid : u.item_u_id = uid := eq_of_beq hupos
    have hpromKeepNu : ∀ x : ItemsU,
        ((if x.item_u_id == nu.item_u_id then
            { x with stage := "m", project_id := none } else x).item_u_id == nu.item_u_id)
          = (x.item_u_id == nu.item_u_id) := by
      intro x
      by_cases hx : (x.item_u_id == nu.item_u_id) = true
      · rw [if_pos hx]
      · rw [if_neg hx]
    have hpromKeepUid : ∀ x : ItemsU,
        ((if x.item_u_id == nu.item_u_id then
            { x with stage := "m", project_id := none } else x).item_u_id == uid)
          = (x.item_u_id == uid) := by
      intro x
      by_cases hx : (x.item_u_id == nu.item_u_id) = true
      · rw [if_pos hx]
      · rw [if_neg hx]
    have hcommitKeepNu : ∀ x : ItemsU,
        ((if x.item_u_id == uid then
            { x with stage := "c", project_id := some pid } else x).item_u_id == nu.item_u_id)
          = (x.item_u_id == nu.item_u_id) := by
      intro x
      by_cases hx : (x.item_u_id == uid) = true
      · rw [if_pos hx]
      · rw [if_neg hx]
    obtain ⟨hgoc, hirr, hirq, hip, hroomsB, hitemsB, hiu⟩ :=
      movingPark { st.db with itemsU := st.db.itemsU.map (fun x =>
          if x.item_u_id == nu.item_u_id then
            { x with stage := "m", project_id := none } else x) }
        pid item.item_id roomP rP hroomP hfP
    have hbm : branchMoving pid st item (st.item_id_list ++ [u.item_id])
        = { db := bumpItemRoom { st.db with itemsU := st.db.itemsU.map (fun x =>
              if x.item_u_id == nu.item_u_id then
                { x with stage := "m", project_id := none } else x) }
              item.item_id roomP.room_id,
            item_id_list := st.item_id_list ++ [u.item_id],
            stolen_projects := st.stolen_projects } := by
      unfold branchMoving
      rw [hav]
      simp only [hgoc]
    refine ⟨commitUnit pid
        { db := bumpItemRoom { st.db with itemsU := st.db.itemsU.map (fun x =>
            if x.item_u_id == nu.item_u_id then
              { x with stage := "m", project_id := none } else x) }
            item.item_id roomP.room_id,
          item_id_list := st.item_id_list ++ [u.item_id],
          stolen_projects := st.stolen_projects } uid,
      ?_, ?_, ?_, ?_, ?_, ?_, ?_, ?_, ?_⟩
    · have hdisp : processUnit pid st uid
          = StepResult.ok (commitUnit pid
              (branchMoving pid st item (st.item_id_list ++ [u.item_id])) uid) := by
        unfold processUnit
        rw [hu]
        simp [hit, hstage]
      rw [hdisp, hbm]
    · intro nu2 hnu2
      obtain rfl : nu = nu2 := Option.some.inj hnu2
      have hstep : (commitUnit pid
          { db := bumpItemRoom { st.db with itemsU := st.db.itemsU.map (fun x =>
              if x.item_u_id == nu.item_u_id then
                { x with stage := "m", project_id := none } else x) }
              item.item_id roomP.room_id,
            item_id_list := st.item_id_list ++ [u.item_id],
            stolen_projects := st.stolen_projects } uid).db.itemsU
          = (st.db.itemsU.map (fun x =>
              if x.item_u_id == nu.item_u_id then
                { x with stage := "m", project_id := none } else x)).map (fun x =>
              if x.item_u_id == uid then
                { x with stage := "c", project_id := some pid } else x) := by
        have h1 : (commitUnit pid
            { db := bumpItemRoom { st.db with itemsU := st.db.itemsU.map (fun x =>
                if x.item_u_id == nu.item_u_id then
                  { x with stage := "m", project_id := none } else x) }
                item.item_id roomP.room_id,
              item_id_list := st.item_id_list ++ [u.item_id],
              stolen_projects := st.stolen_projects } uid).db.itemsU
            = (bumpItemRoom { st.db with itemsU := st.db.itemsU.map (fun x =>
                if x.item_u_id == nu.item_u_id then
                  { x with stage := "m", project_id := none } else x) }
                item.item_id roomP.room_id).itemsU.map (fun x =>
                if x.item_u_id == uid then
                  { x with stage := "c", project_id := some pid } else x) := rfl
        rw [h1, hiu]
      unfold unitState
      rw [hstep, find?_map_invariant _ _ _ hcommitKeepNu,
        find?_map_invariant _ _ _ hpromKeepNu, hnukey1]
      simp only [Option.map_some']
      rw [if_pos (beq_self_eq_true nu.item_u_id)]
      have hneg : ¬((({ nu with stage := "m", project_id := none } :
          ItemsU).item_u_id == uid) = true) := by
        have h3 : (({ nu with stage := "m", project_id := none } :
            ItemsU).item_u_id == uid) = false := hnuid
        rw [h3]
        exact Bool.false_ne_true
      rw [if_neg hneg]
    · intro hcontra
      exact Option.noConfusion hcontra
    · have hstep : (commitUnit pid
          { db := bumpItemRoom { st.db with itemsU := st.db.itemsU.map (fun x =>
              if x.item_u_id == nu.item_u_id then
                { x with stage := "m", project_id := none } else x) }
              item.item_id roomP.room_id,
            item_id_list := st.item_id_list ++ [u.item_id],
            stolen_projects := st.stolen_projects } uid).db.itemsU
          = (st.db.itemsU.map (fun x =>
              if x.item_u_id == nu.item_u_id then
                { x with stage := "m", project_id := none } else x)).map (fun x =>
              if x.item_u_id == uid then
                { x with stage := "c", project_id := some pid } else x) := by
        have h1 : (commitUnit pid
            { db := bumpItemRoom { st.db with itemsU := st.db.itemsU.map (fun x =>
                if x.item_u_id == nu.item_u_id then
                  { x with stage := "m", project_id := none } else x) }
                item.item_id roomP.room_id,
              item_id_list := st.item_id_list ++ [u.item_id],
              stolen_projects := st.stolen_projects } uid).db.itemsU
            = (bumpItemRoom { st.db with itemsU := st.db.itemsU.map (fun x =>
                if x.item_u_id == nu.item_u_id then
                  { x with stage := "m", project_id := none } else x) }
                item.item_id roomP.room_id).itemsU.map (fun x =>
                if x.item_u_id == uid then
                  { x with stage := "c", project_id := some pid } else x) := rfl
        rw [h1, hiu]
      unfold unitState
      rw [hstep, find?_map_invariant _ _ _ hcommitKeep,
        find?_map_invariant _ _ _ hpromKeepUid, hu]
      simp only [Option.map_some']
      have hpromne : (u.item_u_id == nu.item_u_id) = false := by
        rw [huid]
        by_cases hx : uid = nu.item_u_id
        · rw [← hx] at hnuid
          rw [beq_self_eq_true] at hnuid
          exact absurd hnuid (by decide)
        · exact beq_false_of_ne hx
      have hpromne2 : ¬((u.item_u_id == nu.item_u_id) = true) := by
        rw [hpromne]
        exact Bool.false_ne_true
      rw [if_neg hpromne2, if_pos hupos]
    · have hmain : irQty (commitUnit pid
          { db := bumpItemRoom { st.db with itemsU := st.db.itemsU.map (fun x =>
              if x.item_u_id == nu.item_u_id then
                { x with stage := "m", project_id := none } else x) }
              item.item_id roomP.room_id,
            item_id_list := st.item_id_list ++ [u.item_id],
            stolen_projects := st.stolen_projects } uid).db item.item_id roomP.room_id
          = irQty (bumpItemRoom { st.db with itemsU := st.db.itemsU.map (fun x =>
              if x.item_u_id == nu.item_u_id then
                { x with stage := "m", project_id := none } else x) }
              item.item_id roomP.room_id) item.item_id roomP.room_id := rfl
      rw [hmain]
      exact hirq
    · exact hip
    · exact hroomsB
    · exact hitemsB
    · rfl

/-- **C6, witness.**  The amended theorem applied to `c6db`: unit 10 of
item 100 is staged `moving`, unit 11 of the same item is still `available`
and gets promoted, and the aggregate table survives unchanged. -/
theorem C6_moving_parks_without_recompute_witness :
    ∃ st2, processUnit 1 { db := c6db, item_id_list := [], stolen_projects := [] } 10
        = StepResult.ok st2
      ∧ (∀ nu, c6db.itemsU.find?
            (fun x => x.item_id == 100 && x.stage == "a") = some nu →
          unitState st2.db nu.item_u_id = some ("m", none))
      ∧ (c6db.itemsU.find?
            (fun x => x.item_id == 100 && x.stage == "a") = none →
          st2.db.itemsU = c6db.itemsU.map (fun x =>
            if x.item_u_id == 10 then
              { x with stage := "c", project_id := some 1 } else x))
      ∧ unitState st2.db 10 = some ("c", some 1)
      ∧ irQty st2.db 100 5 = some ((1 : Int) + 1, (1 : Int) + 1)
      ∧ st2.db.itemProjects = c6db.itemProjects
      ∧ st2.db.rooms = c6db.rooms
      ∧ st2.db.items = c6db.items
      ∧ st2.stolen_projects = [] :=
  C6_moving_parks_without_recompute 1 10
    { db := c6db, item_id_list := [], stolen_projects := [] }
    { item_u_id := 10, item_id := 100, stage := "m", project_id := some 1 }
    (mkItem 100 "S100" "X100" 1 1 2 2)
    { room_id := 5, project_id := 1, room_name := "Unassigned" }
    { item_id := 100, room_id := 5, item_quantity := 1,
      item_quantity_holder := 1, all_reserved := 1 }
    (by decide) (by decide) (by decide) (by decide) (by decide)
    ⟨by decide, by decide⟩

/-- Mapping a reserved-quantity overwrite keyed to project `pid` over the
aggregate table does not change what is read back for a different project
`q`: the overwrite preserves both key fields and only ever fires on `pid`
rows. -/
theorem reserved_map_other (l : List ItemProject) (iid pid q : Nat) (v : Int)
    (hne : q ≠ pid) :
    ((l.map (fun ip => if ip.item_id == iid && ip.project_id == pid then
        { ip with reserved_quantity := v } else ip)).find?
      (fun ip => ip.item_id == iid && ip.project_id == q)).map
        ItemProject.reserved_quantity
    = (l.find? (fun ip => ip.item_id == iid && ip.project_id == q)).map
        ItemProject.reserved_quantity := by
  have hkeep : ∀ x : ItemProject,
      ((if x.item_id == iid && x.project_id == pid then
          { x with reserved_quantity := v } else x).item_id == iid
        && (if x.item_id == iid && x.project_id == pid then
          { x with reserved_quantity := v } else x).project_id == q)
        = (x.item_id == iid && x.project_id == q) := by
    intro x
    by_cases hx : (x.item_id == iid && x.project_id == pid) = true
    · rw [if_pos hx]
    · rw [if_neg hx]
  rw [find?_map_invariant _ _ _ hkeep]
  cases hf : l.find? (fun ip => ip.item_id == iid && ip.project_id == q) with
  | none => rfl
  | some ipq =>
    simp only [Option.map_some']
    have hq : (ipq.item_id == iid && ipq.project_id == q) = true := by
      have h2 := List.find?_some hf
      exact h2
    have hqq : ipq.project_id = q := eq_of_beq (Bool.and_eq_true_iff.mp hq).2
    have hcond : (ipq.item_id == iid && ipq.project_id == pid) = false := by
      have h3 : (ipq.project_id == pid) = false := by
        rw [hqq]
        exact beq_false_of_ne hne
      rw [h3, Bool.and_false]
    have hcond2 : ¬((ipq.item_id == iid && ipq.project_id == pid) = true) := by
      rw [hcond]
      exact Bool.false_ne_true
    rw [if_neg hcond2]

/-- **C9.**  During a cross-project steal whose losing project `q` has no
ItemRoom row of the stolen item, `confirm_checkout` completes successfully
(no exception): the compensation block is skipped, so `q`'s
`ItemProject.reserved_quantity` for the item is read back unchanged, yet the
stolen-reservation event is still recorded with quantity 1 and exactly one
alert e-mail still goes out to `q`'s users (unioned with the superusers) at
the end of the batch, carrying the sku and the stolen quantity 1; the unit
itself ends checked out on the target project. -/
theorem C9_steal_without_q_row (db : DB) (sess : Session) (pid q uid : Nat)
    (np qp : Project) (u : ItemsU) (item item2 : Item) (roomP : Room) (rP : ItemRoom)
    (hproj : db.projects.find? (fun p => p.project_id == pid) = some np)
    (hsess : sess.checkout_session_item_us = some [uid])
    (hu : db.itemsU.find? (fun x => x.item_u_id == uid) = some u)
    (hstage : u.stage = "r")
    (huproj : u.project_id = some q)
    (hne : q ≠ pid)
    (hit : db.items.find? (fun x => x.item_id == u.item_id) = some item)
    (hroomP : db.rooms.find?
      (fun r => r.project_id == pid && r.room_name == "Unassigned") = some roomP)
    (hfP : db.itemRooms.filter
      (fun ir => ir.item_id == item.item_id && ir.room_id == roomP.room_id) = [rP])
    (hqty : ∀ ir ∈ db.itemRooms, 1 ≤ ir.item_quantity)
    (hipP : db.itemProjects.any
      (fun ip => ip.item_id == item.item_id && ip.project_id == pid) = true)
    (hnoQ : db.itemRooms.filter
      (fun ir => ir.item_id == item.item_id && roomInProject db.rooms ir.room_id q) = [])
    (hprojQ : db.projects.find? (fun p => p.project_id == q) = some qp)
    (hsku : db.items.find? (fun it => it.sku_num == item.sku_num) = some item2) :
    ∃ dbf, confirm_checkout db sess pid
        = CheckoutResult.ok dbf
          { checkout_session_item_us := none, has_checkout_session_items := false }
          [{ recipients := recipientsFor db q, new_project_name := np.project_name,
             project_name := qp.project_name, sku := item.sku_num,
             adjusted_quantity := 1 }]
      ∧ ipReserved dbf item.item_id q = ipReserved db item.item_id q
      ∧ unitState dbf uid = some ("c", some pid) := by
  have hqne : (q != pid) = true := by simpa using hne
  have hupos : (u.item_u_id == uid) = true := by
    have h2 := List.find?_some hu
    exact h2
  have hcommitKeep : ∀ x : ItemsU,
      ((if x.item_u_id == uid then
          { x with stage := "c", project_id := some pid } else x).item_u_id == uid)
        = (x.item_u_id == uid) := by
    intro x
    by_cases hx : (x.item_u_id == uid) = true
    · rw [if_pos hx]
    · rw [if_neg hx]
  have hdisp : processUnit pid { db := db, item_id_list := [], stolen_projects := [] } uid
      = StepResult.ok (commitUnit pid
          (branchAvailOrSteal pid { db := db, item_id_list := [], stolen_projects := [] }
            item (some q) [u.item_id]) uid) := by
    unfold processUnit
    rw [show ({ db := db, item_id_list := [], stolen_projects := [] } :
        LoopState).db.itemsU.find? (fun x => x.item_u_id == uid) = some u from hu]
    simp [hit, hstage, huproj, hqne]
  have hB2 : branchAvailOrSteal pid { db := db, item_id_list := [], stolen_projects := [] }
      item (some q) [u.item_id]
      = { db := { db with
            itemRooms := db.itemRooms.map (fun ir =>
              if ir.item_id == item.item_id && ir.room_id == roomP.room_id then
                bumpCounters ir else ir),
            itemProjects := db.itemProjects.map (fun ip =>
              if ip.item_id == item.item_id && ip.project_id == pid then
                { ip with reserved_quantity := sumItemQty db item.item_id pid + 1 }
              else ip) },
          item_id_list := [u.item_id],
          stolen_projects := recordStolen [] q item.sku_num } :=
    branchSteal_noQrow pid q { db := db, item_id_list := [], stolen_projects := [] }
      item roomP rP [u.item_id] hroomP hfP hqty hipP hnoQ
  have hrun : processUnits pid { db := db, item_id_list := [], stolen_projects := [] } [uid]
      = StepResult.ok (commitUnit pid
          { db := { db with
              itemRooms := db.itemRooms.map (fun ir =>
              if ir.item_id == item.item_id && ir.room_id == roomP.room_id then
                bumpCounters ir else ir),
              itemProjects := db.itemProjects.map (fun ip =>
              if ip.item_id == item.item_id && ip.project_id == pid then
                { ip with reserved_quantity := sumItemQty db item.item_id pid + 1 }
              else ip) },
            item_id_list := [u.item_id],
            stolen_projects := recordStolen [] q item.sku_num } uid) := by
    simp only [processUnits, hdisp, hB2]
  have hcu : commitUnit pid
      { db := { db with
          itemRooms := db.itemRooms.map (fun ir =>
              if ir.item_id == item.item_id && ir.room_id == roomP.room_id then
                bumpCounters ir else ir),
          itemProjects := db.itemProjects.map (fun ip =>
              if ip.item_id == item.item_id && ip.project_id == pid then
                { ip with reserved_quantity := sumItemQty db item.item_id pid + 1 }
              else ip) },
        item_id_list := [u.item_id],
        stolen_projects := recordStolen [] q item.sku_num } uid
      = { db := { db with
            itemsU := db.itemsU.map (fun x =>
              if x.item_u_id == uid then
                { x with stage := "c", project_id := some pid } else x),
            itemRooms := db.itemRooms.map (fun ir =>
              if ir.item_id == item.item_id && ir.room_id == roomP.room_id then
                bumpCounters ir else ir),
            itemProjects := db.itemProjects.map (fun ip =>
              if ip.item_id == item.item_id && ip.project_id == pid then
                { ip with reserved_quantity := sumItemQty db item.item_id pid + 1 }
              else ip) },
          item_id_list := [u.item_id],
          stolen_projects := recordStolen [] q item.sku_num } := rfl
  rw [hcu] at hrun
  have hbe : buildEmails { db with
            itemsU := db.itemsU.map (fun x =>
              if x.item_u_id == uid then
                { x with stage := "c", project_id := some pid } else x),
            itemRooms := db.itemRooms.map (fun ir =>
              if ir.item_id == item.item_id && ir.room_id == roomP.room_id then
                bumpCounters ir else ir),
            itemProjects := db.itemProjects.map (fun ip =>
              if ip.item_id == item.item_id && ip.project_id == pid then
                { ip with reserved_quantity := sumItemQty db item.item_id pid + 1 }
              else ip) }
      np.project_name (recordStolen [] q item.sku_num)
      = some [{ recipients := recipientsFor db q, new_project_name := np.project_name,
                project_name := qp.project_name, sku := item.sku_num,
                adjusted_quantity := 1 }] := by
    have hrs : recordStolen [] q item.sku_num
        = [{ project_id := q, items := [{ sku_num := item.sku_num, quantity := 1 }] }] := rfl
    rw [hrs]
    simp only [buildEmails, emailsForProject]
    rw [hprojQ]
    simp only [sendItemEmails, emailFor]
    rw [hsku]
    have hrec : recipientsFor { db with
            itemsU := db.itemsU.map (fun x =>
              if x.item_u_id == uid then
                { x with stage := "c", project_id := some pid } else x),
            itemRooms := db.itemRooms.map (fun ir =>
              if ir.item_id == item.item_id && ir.room_id == roomP.room_id then
                bumpCounters ir else ir),
            itemProjects := db.itemProjects.map (fun ip =>
              if ip.item_id == item.item_id && ip.project_id == pid then
                { ip with reserved_quantity := sumItemQty db item.item_id pid + 1 }
              else ip) } q = recipientsFor db q := rfl
    simp only [buildEmails, sendItemEmails, Option.map_some', hrec]
    rfl
  refine ⟨pruneZeroReservations (update_item_quantities { db with
            itemsU := db.itemsU.map (fun x =>
              if x.item_u_id == uid then
                { x with stage := "c", project_id := some pid } else x),
            itemRooms := db.itemRooms.map (fun ir =>
              if ir.item_id == item.item_id && ir.room_id == roomP.room_id then
                bumpCounters ir else ir),
            itemProjects := db.itemProjects.map (fun ip =>
              if ip.item_id == item.item_id && ip.project_id == pid then
                { ip with reserved_quantity := sumItemQty db item.item_id pid + 1 }
              else ip) } u.item_id pid),
    ?_, ?_, ?_⟩
  · unfold confirm_checkout
    rw [hproj]
    simp only [hsess, hrun, hbe]
    rfl
  · exact reserved_map_other db.itemProjects item.item_id pid q
      (sumItemQty db item.item_id pid + 1) hne
  · have hstep3 : unitState (pruneZeroReservations (update_item_quantities
        { db with
            itemsU := db.itemsU.map (fun x =>
              if x.item_u_id == uid then
                { x with stage := "c", project_id := some pid } else x),
            itemRooms := db.itemRooms.map (fun ir =>
              if ir.item_id == item.item_id && ir.room_id == roomP.room_id then
                bumpCounters ir else ir),
            itemProjects := db.itemProjects.map (fun ip =>
              if ip.item_id == item.item_id && ip.project_id == pid then
                { ip with reserved_quantity := sumItemQty db item.item_id pid + 1 }
              else ip) } u.item_id pid)) uid
        = ((db.itemsU.map (fun x =>
              if x.item_u_id == uid then
                { x with stage := "c", project_id := some pid } else x)).find?
            (fun x => x.item_u_id == uid)).map (fun x => (x.stage, x.project_id)) := rfl
    rw [hstep3, find?_map_invariant _ _ _ hcommitKeep, hu]
    simp only [Option.map_some']
    rw [if_pos hupos]

/-- **C9, witness.**  The theorem applied to `c9db`: project 2 owns no room,
so no ItemRoom row of item 100 lies in it; the run succeeds, the stale
aggregate 5 survives, and one quantity-1 alert still reaches project 2's
users. -/
theorem C9_steal_without_q_row_witness :
    ∃ dbf, confirm_checkout c9db
        { checkout_session_item_us := some [10], has_checkout_session_items := false } 1
        = CheckoutResult.ok dbf
          { checkout_session_item_us := none, has_checkout_session_items := false }
          [{ recipients := recipientsFor c9db 2, new_project_name := "P",
             project_name := "Q", sku := "S100", adjusted_quantity := 1 }]
      ∧ ipReserved dbf 100 2 = ipReserved c9db 100 2
      ∧ unitState dbf 10 = some ("c", some 1) :=
  C9_steal_without_q_row c9db
    { checkout_session_item_us := some [10], has_checkout_session_items := false }
    1 2 10
    { project_id := 1, project_name := "P", completed_date := none }
    { project_id := 2, project_name := "Q", completed_date := none }
    { item_u_id := 10, item_id := 100, stage := "r", project_id := some 2 }
    (mkItem 100 "S100" "X100" 0 2 2 2) (mkItem 100 "S100" "X100" 0 2 2 2)
    { room_id := 5, project_id := 1, room_name := "Unassigned" }
    { item_id := 100, room_id := 5, item_quantity := 1,
      item_quantity_holder := 1, all_reserved := 1 }
    (by decide) (by decide) (by decide) (by decide) (by decide) (by decide)
    (by decide) (by decide) (by decide) (by decide) (by decide) (by decide)
    (by decide) (by decide)
